import Mathlib

/-!
# gspell Go binding (`gspell_generated.go`): shallow embedding

The binding is glue over the native gspell library.  The embedding keeps the
two sides apart:

* the native library is a record `Lib N` of functions over an abstract native
  state `N` (one field per C function the binding calls);
* every Go function of the binding is a state-passing function over a `World`,
  which holds the native state, the C heap of transient strings made by
  `C.CString`, the Go allocation counter, and the trace of boundary events.
-/

namespace Gspell

/-- A byte of a Go string or of C memory. -/
abbrev Byte := Fin 256

/-- Go `string`: a finite byte sequence; any byte, NUL included, may occur. -/
abbrev GoString := List Byte

/-- A `uintptr` or C object pointer; `0` is NULL (Go `nil`). -/
abbrev Handle := Nat

/-- The C constant `TRUE` of type `gboolean`. -/
def TRUE : Int := 1

/-- The C constant `FALSE` of type `gboolean`. -/
def FALSE : Int := 0

/-! ## `CheckerError` (source lines 65-78) -/

/-- Go `type CheckerError int`. -/
abbrev CheckerError := Int

/-- Dictionary error. -/
def CheckerErrorDictionary : CheckerError := 0

/-- No language set. -/
def CheckerErrorNoLanguageSet : CheckerError := 1

/-! ## Values that cross the boundary -/

/-- A `GError` object: error domain (quark), code and message. -/
structure GError where
  domain : Nat
  code : Int
  message : List Byte
deriving DecidableEq, Repr

/-- A `char*` argument as the native side receives it: the address, and the
bytes of the block found at that address when the call is made (`none` when the
address is not a live block). -/
structure CStrArg where
  ptr : Nat
  block : Option (List Byte)
deriving DecidableEq, Repr

/-- Bytes of a NUL-terminated string stored at the start of `bytes`: everything
before the first NUL. -/
def cstrOf (bytes : List Byte) : List Byte :=
  bytes.takeWhile (fun b => b ≠ 0)

/-- The C string a native function reads through a `char*` argument. -/
def CStrArg.content (a : CStrArg) : List Byte :=
  match a.block with
  | some bytes => cstrOf bytes
  | none => []

/-- Number of bytes of the block behind a `char*` argument. -/
def CStrArg.size (a : CStrArg) : Nat :=
  match a.block with
  | some bytes => bytes.length
  | none => 0

/-- Width of Go `int` and of C `gssize` (both are the pointer width). -/
def wordBits : Nat := 64

/-- Conversion `C.gssize(n)` of a Go `int`: wrap into the signed range of
`wordBits` bits.  It is the identity on every value a Go `int` can hold. -/
def C.gssize (n : Int) : Int :=
  (n + 2 ^ (wordBits - 1)) % 2 ^ wordBits - 2 ^ (wordBits - 1)

/-- The values of a Go `int`. -/
def isGoInt (n : Int) : Prop :=
  -(2 ^ (wordBits - 1)) ≤ n ∧ n < 2 ^ (wordBits - 1)

instance (n : Int) : Decidable (isGoInt n) := by
  unfold isGoInt; exact inferInstance

/-- Embedding of `C.GoString(p)`: copy of the NUL-terminated string at `p`; the empty string
for a NULL pointer.  `p` is modelled by the bytes readable from it on. -/
def C.GoString (p : Option (List Byte)) : GoString :=
  match p with
  | some bytes => cstrOf bytes
  | none => []

/-- Modelled from the spec: the helper `gobool` is defined outside
`gspell_generated.go`; the spec names the step "convert boolean".  A `gboolean`
is true exactly when it is not `FALSE`. -/
def gobool (b : Int) : Bool :=
  decide (b ≠ FALSE)

/-- Modelled from the spec: the helper `cbool` is defined outside
`gspell_generated.go`; the spec names the step "convert boolean".  Go `true`
becomes `TRUE`, Go `false` becomes `FALSE`. -/
def cbool (b : Bool) : Int :=
  if b then TRUE else FALSE

/-! ## The native library -/

/-- The C functions the binding calls, over an abstract native state `N`.
Readers return their result; the others also return the next state.  A
`const gchar*` result is the bytes readable from the returned pointer on
(`none` for NULL); a `GList*` result is the list of its data pointers.
`gspell_checker_check_word` returns the `gboolean` together with the error the
library raises; its last argument is the `GError**` location. -/
structure Lib (N : Type) where
  gspell_language_get_available : N → List Handle
  gspell_language_get_default : N → Handle
  gspell_language_lookup : N → CStrArg → Handle
  gspell_language_get_code : N → Handle → Option (List Byte)
  gspell_language_get_name : N → Handle → Option (List Byte)
  gspell_language_compare : N → Handle → Handle → Int
  gspell_language_chooser_get_language : N → Handle → Handle
  gspell_language_chooser_get_language_code : N → Handle → Option (List Byte)
  gspell_language_chooser_set_language : N → Handle → Handle → N
  gspell_language_chooser_set_language_code : N → Handle → CStrArg → N
  gspell_navigator_change : N → Handle → CStrArg → CStrArg → N
  gspell_navigator_change_all : N → Handle → CStrArg → CStrArg → N
  gspell_checker_new : N → Handle → Handle × N
  gspell_checker_add_word_to_personal : N → Handle → CStrArg → Int → N
  gspell_checker_add_word_to_session : N → Handle → CStrArg → Int → N
  gspell_checker_check_word : N → Handle → CStrArg → Int → Handle → (Int × Option GError) × N
  gspell_checker_clear_session : N → Handle → N
  gspell_checker_get_language : N → Handle → Handle
  gspell_checker_get_suggestions : N → Handle → CStrArg → Int → Handle × N
  gspell_checker_set_correction : N → Handle → CStrArg → Int → CStrArg → Int → N
  gspell_checker_set_language : N → Handle → Handle → N
  gspell_entry_get_from_gtk_entry : N → Handle → Handle × N
  gspell_entry_basic_setup : N → Handle → N
  gspell_entry_get_entry : N → Handle → Handle
  gspell_entry_get_inline_spell_checking : N → Handle → Int
  gspell_entry_set_inline_spell_checking : N → Handle → Int → N
  gspell_entry_buffer_get_from_gtk_entry_buffer : N → Handle → Handle × N
  gspell_entry_buffer_get_spell_checker : N → Handle → Handle
  gspell_entry_buffer_set_spell_checker : N → Handle → Handle → N
  gspell_text_buffer_get_from_gtk_text_buffer : N → Handle → Handle × N
  gspell_text_buffer_get_spell_checker : N → Handle → Handle
  gspell_text_buffer_set_spell_checker : N → Handle → Handle → N
  gspell_text_view_get_from_gtk_text_view : N → Handle → Handle × N
  gspell_text_view_basic_setup : N → Handle → N
  gspell_text_view_get_enable_language_menu : N → Handle → Int
  gspell_text_view_get_inline_spell_checking : N → Handle → Int
  gspell_text_view_get_view : N → Handle → Handle
  gspell_text_view_set_enable_language_menu : N → Handle → Int → N
  gspell_text_view_set_inline_spell_checking : N → Handle → Int → N
  gtk_text_view_get_buffer : N → Handle → Handle
  gtk_entry_get_buffer : N → Handle → Handle

/-- A call into the native library, with the arguments handed over. -/
inductive Call where
  | gspell_language_get_available
  | gspell_language_get_default
  | gspell_language_lookup (code : CStrArg)
  | gspell_language_get_code (self : Handle)
  | gspell_language_get_name (self : Handle)
  | gspell_language_compare (a b : Handle)
  | gspell_language_chooser_get_language (self : Handle)
  | gspell_language_chooser_get_language_code (self : Handle)
  | gspell_language_chooser_set_language (self language : Handle)
  | gspell_language_chooser_set_language_code (self : Handle) (code : CStrArg)
  | gspell_navigator_change (self : Handle) (word changeTo : CStrArg)
  | gspell_navigator_change_all (self : Handle) (word changeTo : CStrArg)
  | gspell_checker_new (language : Handle)
  | gspell_checker_add_word_to_personal (self : Handle) (word : CStrArg) (len : Int)
  | gspell_checker_add_word_to_session (self : Handle) (word : CStrArg) (len : Int)
  | gspell_checker_check_word (self : Handle) (word : CStrArg) (len : Int) (error : Handle)
  | gspell_checker_clear_session (self : Handle)
  | gspell_checker_get_language (self : Handle)
  | gspell_checker_get_suggestions (self : Handle) (word : CStrArg) (len : Int)
  | gspell_checker_set_correction (self : Handle) (word : CStrArg) (len : Int)
      (replacement : CStrArg) (replacementLen : Int)
  | gspell_checker_set_language (self language : Handle)
  | gspell_entry_get_from_gtk_entry (gtkEntry : Handle)
  | gspell_entry_basic_setup (self : Handle)
  | gspell_entry_get_entry (self : Handle)
  | gspell_entry_get_inline_spell_checking (self : Handle)
  | gspell_entry_set_inline_spell_checking (self : Handle) (enable : Int)
  | gspell_entry_buffer_get_from_gtk_entry_buffer (gtkBuffer : Handle)
  | gspell_entry_buffer_get_spell_checker (self : Handle)
  | gspell_entry_buffer_set_spell_checker (self checker : Handle)
  | gspell_text_buffer_get_from_gtk_text_buffer (gtkBuffer : Handle)
  | gspell_text_buffer_get_spell_checker (self : Handle)
  | gspell_text_buffer_set_spell_checker (self checker : Handle)
  | gspell_text_view_get_from_gtk_text_view (gtkView : Handle)
  | gspell_text_view_basic_setup (self : Handle)
  | gspell_text_view_get_enable_language_menu (self : Handle)
  | gspell_text_view_get_inline_spell_checking (self : Handle)
  | gspell_text_view_get_view (self : Handle)
  | gspell_text_view_set_enable_language_menu (self : Handle) (enable : Int)
  | gspell_text_view_set_inline_spell_checking (self : Handle) (enable : Int)
  | gtk_text_view_get_buffer (view : Handle)
  | gtk_entry_get_buffer (entry : Handle)
deriving DecidableEq, Repr

/-- An event at the language boundary, in program order. -/
inductive Event where
  /-- Event: `C.CString` allocated the block `bytes` at address `p`. -/
  | CString (p : Nat) (bytes : List Byte)
  /-- Event: `C.free(p)`. -/
  | free (p : Nat)
  /-- Event: `glib.Take(p)`, the Go side took a reference on the object `p`. -/
  | Take (p : Handle)
  /-- A call of a gspell or GTK function. -/
  | native (c : Call)
deriving DecidableEq, Repr

/-- Everything a Go function of the binding can read or change. -/
structure World (N : Type) where
  /-- State of the native library. -/
  native : N
  /-- Last address handed out by the C allocator. -/
  cnext : Nat
  /-- Live blocks of the C heap. -/
  cmem : List (Nat × List Byte)
  /-- Last address handed out by the Go allocator. -/
  gonext : Nat
  /-- Boundary events so far, oldest first. -/
  trace : List Event
deriving DecidableEq

/-- Append an event to the trace. -/
def World.emit {N : Type} (w : World N) (e : Event) : World N :=
  ⟨w.native, w.cnext, w.cmem, w.gonext, w.trace ++ [e]⟩

/-- Replace the native state. -/
def World.setNative {N : Type} (w : World N) (n : N) : World N :=
  ⟨n, w.cnext, w.cmem, w.gonext, w.trace⟩

/-- Record the native call `c` and move the native state to `n`. -/
def World.call {N : Type} (w : World N) (c : Call) (n : N) : World N :=
  (w.emit (Event.native c)).setNative n

/-- The block at address `p` of the C heap, if live. -/
def World.block {N : Type} (w : World N) (p : Nat) : Option (List Byte) :=
  (w.cmem.find? (fun e => e.1 == p)).map (fun e => e.2)

/-- A `char*` argument `p` as the native side sees it in world `w`. -/
def World.arg {N : Type} (w : World N) (p : Nat) : CStrArg :=
  ⟨p, w.block p⟩

/-- Embedding of `C.CString(s)`: allocate `len(s)+1` bytes at a fresh non-NULL address, copy
the bytes of `s` and append the terminating NUL. -/
def C.CString {N : Type} (s : Gspell.GoString) (w : World N) : Nat × World N :=
  let p := w.cnext + 1
  (p, ⟨w.native, p, (p, s ++ [0]) :: w.cmem, w.gonext, w.trace ++ [Event.CString p (s ++ [0])]⟩)

/-- Embedding of `C.free(p)`: release the block at `p`. -/
def C.free {N : Type} (p : Nat) (w : World N) : World N :=
  ⟨w.native, w.cnext, w.cmem.filter (fun e => e.1 != p), w.gonext, w.trace ++ [Event.free p]⟩

/-- A Go allocation (`&T{...}`): a fresh address. -/
def World.new {N : Type} (w : World N) : Nat × World N :=
  (w.gonext + 1, ⟨w.native, w.cnext, w.cmem, w.gonext + 1, w.trace⟩)

/-- The gspell and GTK calls of a trace, in order. -/
def nativeCalls (t : List Event) : List Call :=
  t.filterMap (fun e => match e with
    | Event.native c => some c
    | _ => none)

/-! ## Go-side objects -/

/-- A `*glib.Object` of gotk3: the Go address of the wrapper and the `GObject`
pointer it holds. -/
structure glib.Object where
  addr : Nat
  GObject : Handle
deriving DecidableEq, Repr

/-- Embedding of `(*glib.Object).Native()`: the held pointer as a `uintptr`. -/
def glib.Object.Native (o : glib.Object) : Handle :=
  o.GObject

/-- Embedding of `glib.Take(ptr)` of gotk3: allocate a new `*glib.Object` around `ptr` and
take a reference on it. -/
def glib.Take {N : Type} (ptr : Handle) (w : World N) : glib.Object × World N :=
  let (a, w1) := w.new
  (⟨a, ptr⟩, w1.emit (Event.Take ptr))

/-- A `*Language`.  The source declares `type Language C.GspellLanguage`, so a
`*Language` is the C pointer itself and Go `nil` is the NULL pointer `0`. -/
abbrev Language := Handle

/-- Embedding of `(*Language).native()`: a pointer conversion; the receiver is not
dereferenced. -/
def Language.native (l : Language) : Handle :=
  l

/-- Embedding of `(*Language).Native()`. -/
def Language.Native (l : Language) : Handle :=
  Language.native l

/-- A `*LanguageChooser`. -/
structure LanguageChooser where
  addr : Nat
  Object : glib.Object
deriving DecidableEq, Repr

/-- A `*Navigator`. -/
structure Navigator where
  addr : Nat
  Object : glib.Object
deriving DecidableEq, Repr

/-- A `*Checker`. -/
structure Checker where
  addr : Nat
  Object : glib.Object
deriving DecidableEq, Repr

/-- A `*Entry`. -/
structure Entry where
  addr : Nat
  Object : glib.Object
deriving DecidableEq, Repr

/-- A `*EntryBuffer`. -/
structure EntryBuffer where
  addr : Nat
  Object : glib.Object
deriving DecidableEq, Repr

/-- A `*TextBuffer`. -/
structure TextBuffer where
  addr : Nat
  Object : glib.Object
deriving DecidableEq, Repr

/-- A `*TextView`. -/
structure TextView where
  addr : Nat
  Object : glib.Object
deriving DecidableEq, Repr

/-- A gotk3 widget or buffer wrapper (`*gtk.TextBuffer`, `*gtk.EntryBuffer`,
`*gtk.TextView`, `*gtk.Entry`): only the embedded `*glib.Object` matters. -/
structure gtk.Widget where
  addr : Nat
  Object : glib.Object
deriving DecidableEq, Repr

/-! ## `LanguageChooser` (source lines 89-115) -/

def LanguageChooser.native (l : LanguageChooser) : Handle :=
  l.Object.Native

def LanguageChooser.GetLanguage {N : Type} (lib : Lib N) (l : LanguageChooser) (w : World N) :
    Language × World N :=
  let r := lib.gspell_language_chooser_get_language w.native l.native
  (r, w.call (Call.gspell_language_chooser_get_language l.native) w.native)

def LanguageChooser.GetLanguageCode {N : Type} (lib : Lib N) (l : LanguageChooser) (w : World N) :
    GoString × World N :=
  let r := C.GoString (lib.gspell_language_chooser_get_language_code w.native l.native)
  (r, w.call (Call.gspell_language_chooser_get_language_code l.native) w.native)

def LanguageChooser.SetLanguage {N : Type} (lib : Lib N) (l : LanguageChooser)
    (language : Language) (w : World N) : World N :=
  let v1 := Language.Native language
  w.call (Call.gspell_language_chooser_set_language l.native v1)
    (lib.gspell_language_chooser_set_language w.native l.native v1)

def LanguageChooser.SetLanguageCode {N : Type} (lib : Lib N) (l : LanguageChooser)
    (languageCode : GoString) (w : World N) : World N :=
  let (v1, w1) := C.CString languageCode w
  let a1 := w1.arg v1
  let w2 := w1.call (Call.gspell_language_chooser_set_language_code l.native a1)
    (lib.gspell_language_chooser_set_language_code w1.native l.native a1)
  C.free v1 w2

/-! ## `Navigator` (source lines 134-170) -/

def Navigator.native (n : Navigator) : Handle :=
  n.Object.Native

def Navigator.Change {N : Type} (lib : Lib N) (n : Navigator) (word changeTo : GoString)
    (w : World N) : World N :=
  let (v1, w1) := C.CString word w
  let (v2, w2) := C.CString changeTo w1
  let a1 := w2.arg v1
  let a2 := w2.arg v2
  let w3 := w2.call (Call.gspell_navigator_change n.native a1 a2)
    (lib.gspell_navigator_change w2.native n.native a1 a2)
  C.free v1 (C.free v2 w3)

def Navigator.ChangeAll {N : Type} (lib : Lib N) (n : Navigator) (word changeTo : GoString)
    (w : World N) : World N :=
  let (v1, w1) := C.CString word w
  let (v2, w2) := C.CString changeTo w1
  let a1 := w2.arg v1
  let a2 := w2.arg v2
  let w3 := w2.call (Call.gspell_navigator_change_all n.native a1 a2)
    (lib.gspell_navigator_change_all w2.native n.native a1 a2)
  C.free v1 (C.free v2 w3)

/-! ## Language registry (source lines 176-192) -/

/-- Embedding of `LanguageGetAvailable`; the `*glib.List` is given by its data pointers. -/
def LanguageGetAvailable {N : Type} (lib : Lib N) (w : World N) : List Language × World N :=
  let r := lib.gspell_language_get_available w.native
  (r, w.call Call.gspell_language_get_available w.native)

def LanguageGetDefault {N : Type} (lib : Lib N) (w : World N) : Language × World N :=
  let r := lib.gspell_language_get_default w.native
  (r, w.call Call.gspell_language_get_default w.native)

def LanguageLookup {N : Type} (lib : Lib N) (languageCode : GoString) (w : World N) :
    Language × World N :=
  let (v1, w1) := C.CString languageCode w
  let a1 := w1.arg v1
  let r := lib.gspell_language_lookup w1.native a1
  let w2 := w1.call (Call.gspell_language_lookup a1) w1.native
  (r, C.free v1 w2)

/-! ## `Checker` (source lines 194-305) -/

/-- Embedding of `wrapChecker(ptr)`: `glib.Take(ptr)` and a newly allocated `&Checker{...}`. -/
def wrapChecker {N : Type} (ptr : Handle) (w : World N) : Checker × World N :=
  let (obj, w1) := glib.Take ptr w
  let (a, w2) := w1.new
  (⟨a, obj⟩, w2)

def CheckerNew {N : Type} (lib : Lib N) (language : Language) (w : World N) : Checker × World N :=
  let v1 := Language.Native language
  let (p, n) := lib.gspell_checker_new w.native v1
  wrapChecker p (w.call (Call.gspell_checker_new v1) n)

def Checker.native (c : Checker) : Handle :=
  c.Object.Native

def Checker.AddWordToPersonal {N : Type} (lib : Lib N) (c : Checker) (word : GoString)
    (wordLength : Int) (w : World N) : World N :=
  let (v1, w1) := C.CString word w
  let v2 := C.gssize wordLength
  let a1 := w1.arg v1
  let w2 := w1.call (Call.gspell_checker_add_word_to_personal c.native a1 v2)
    (lib.gspell_checker_add_word_to_personal w1.native c.native a1 v2)
  C.free v1 w2

def Checker.AddWordToSession {N : Type} (lib : Lib N) (c : Checker) (word : GoString)
    (wordLength : Int) (w : World N) : World N :=
  let (v1, w1) := C.CString word w
  let v2 := C.gssize wordLength
  let a1 := w1.arg v1
  let w2 := w1.call (Call.gspell_checker_add_word_to_session c.native a1 v2)
    (lib.gspell_checker_add_word_to_session w1.native c.native a1 v2)
  C.free v1 w2

/-- Embedding of `CheckWord`: the `GError**` argument of the native call is `nil`. -/
def Checker.CheckWord {N : Type} (lib : Lib N) (c : Checker) (word : GoString)
    (wordLength : Int) (w : World N) : Bool × World N :=
  let (v1, w1) := C.CString word w
  let v2 := C.gssize wordLength
  let a1 := w1.arg v1
  let (out, n) := lib.gspell_checker_check_word w1.native c.native a1 v2 0
  let r := gobool out.1
  let w2 := w1.call (Call.gspell_checker_check_word c.native a1 v2 0) n
  (r, C.free v1 w2)

def Checker.ClearSession {N : Type} (lib : Lib N) (c : Checker) (w : World N) : World N :=
  w.call (Call.gspell_checker_clear_session c.native)
    (lib.gspell_checker_clear_session w.native c.native)

def Checker.GetLanguage {N : Type} (lib : Lib N) (c : Checker) (w : World N) :
    Language × World N :=
  let r := lib.gspell_checker_get_language w.native c.native
  (r, w.call (Call.gspell_checker_get_language c.native) w.native)

/-- Embedding of `GetSuggestions`; the `*glib.SList` is given by the wrapped pointer. -/
def Checker.GetSuggestions {N : Type} (lib : Lib N) (c : Checker) (word : GoString)
    (wordLength : Int) (w : World N) : Handle × World N :=
  let (v1, w1) := C.CString word w
  let v2 := C.gssize wordLength
  let a1 := w1.arg v1
  let (r, n) := lib.gspell_checker_get_suggestions w1.native c.native a1 v2
  let w2 := w1.call (Call.gspell_checker_get_suggestions c.native a1 v2) n
  (r, C.free v1 w2)

def Checker.SetCorrection {N : Type} (lib : Lib N) (c : Checker) (word : GoString)
    (wordLength : Int) (replacement : GoString) (replacementLength : Int) (w : World N) :
    World N :=
  let (v1, w1) := C.CString word w
  let v2 := C.gssize wordLength
  let (v3, w2) := C.CString replacement w1
  let v4 := C.gssize replacementLength
  let a1 := w2.arg v1
  let a3 := w2.arg v3
  let w3 := w2.call (Call.gspell_checker_set_correction c.native a1 v2 a3 v4)
    (lib.gspell_checker_set_correction w2.native c.native a1 v2 a3 v4)
  C.free v1 (C.free v3 w3)

def Checker.SetLanguage {N : Type} (lib : Lib N) (c : Checker) (language : Language)
    (w : World N) : World N :=
  let v1 := Language.Native language
  w.call (Call.gspell_checker_set_language c.native v1)
    (lib.gspell_checker_set_language w.native c.native v1)

/-! ## `Entry` and `EntryBuffer` (source lines 354-481) -/

def wrapEntry {N : Type} (ptr : Handle) (w : World N) : Entry × World N :=
  let (obj, w1) := glib.Take ptr w
  let (a, w2) := w1.new
  (⟨a, obj⟩, w2)

def Entry.native (e : Entry) : Handle :=
  e.Object.Native

def GetFromGtkEntry {N : Type} (lib : Lib N) (gtkEntry : gtk.Widget) (w : World N) :
    Entry × World N :=
  let v1 := gtkEntry.Object.Native
  let (p, n) := lib.gspell_entry_get_from_gtk_entry w.native v1
  wrapEntry p (w.call (Call.gspell_entry_get_from_gtk_entry v1) n)

def Entry.BasicSetup {N : Type} (lib : Lib N) (e : Entry) (w : World N) : World N :=
  w.call (Call.gspell_entry_basic_setup e.native) (lib.gspell_entry_basic_setup w.native e.native)

def Entry.GetEntry {N : Type} (lib : Lib N) (e : Entry) (w : World N) : gtk.Widget × World N :=
  let p := lib.gspell_entry_get_entry w.native e.native
  let (obj, w1) := glib.Take p (w.call (Call.gspell_entry_get_entry e.native) w.native)
  let (a, w2) := w1.new
  (⟨a, obj⟩, w2)

def Entry.GetInlineSpellChecking {N : Type} (lib : Lib N) (e : Entry) (w : World N) :
    Bool × World N :=
  let r := gobool (lib.gspell_entry_get_inline_spell_checking w.native e.native)
  (r, w.call (Call.gspell_entry_get_inline_spell_checking e.native) w.native)

def Entry.SetInlineSpellChecking {N : Type} (lib : Lib N) (e : Entry) (enable : Bool)
    (w : World N) : World N :=
  let v1 := cbool enable
  w.call (Call.gspell_entry_set_inline_spell_checking e.native v1)
    (lib.gspell_entry_set_inline_spell_checking w.native e.native v1)

def wrapEntryBuffer {N : Type} (ptr : Handle) (w : World N) : EntryBuffer × World N :=
  let (obj, w1) := glib.Take ptr w
  let (a, w2) := w1.new
  (⟨a, obj⟩, w2)

def EntryBuffer.native (e : EntryBuffer) : Handle :=
  e.Object.Native

def GetFromGtkEntryBuffer {N : Type} (lib : Lib N) (gtkBuffer : gtk.Widget) (w : World N) :
    EntryBuffer × World N :=
  let v1 := gtkBuffer.Object.Native
  let (p, n) := lib.gspell_entry_buffer_get_from_gtk_entry_buffer w.native v1
  wrapEntryBuffer p (w.call (Call.gspell_entry_buffer_get_from_gtk_entry_buffer v1) n)

def EntryBuffer.GetSpellChecker {N : Type} (lib : Lib N) (e : EntryBuffer) (w : World N) :
    Checker × World N :=
  let p := lib.gspell_entry_buffer_get_spell_checker w.native e.native
  wrapChecker p (w.call (Call.gspell_entry_buffer_get_spell_checker e.native) w.native)

def EntryBuffer.SetSpellChecker {N : Type} (lib : Lib N) (e : EntryBuffer)
    (spellChecker : Checker) (w : World N) : World N :=
  let v1 := spellChecker.Object.Native
  w.call (Call.gspell_entry_buffer_set_spell_checker e.native v1)
    (lib.gspell_entry_buffer_set_spell_checker w.native e.native v1)

/-! ## `TextBuffer` and `TextView` (source lines 622-767) -/

/-- Embedding of `wrapTextBuffer(ptr)`: `glib.Take(ptr)` and a newly allocated
`&TextBuffer{...}`. -/
def wrapTextBuffer {N : Type} (ptr : Handle) (w : World N) : TextBuffer × World N :=
  let (obj, w1) := glib.Take ptr w
  let (a, w2) := w1.new
  (⟨a, obj⟩, w2)

def TextBuffer.native (t : TextBuffer) : Handle :=
  t.Object.Native

def GetFromGtkTextBuffer {N : Type} (lib : Lib N) (gtkBuffer : gtk.Widget) (w : World N) :
    TextBuffer × World N :=
  let v1 := gtkBuffer.Object.Native
  let (p, n) := lib.gspell_text_buffer_get_from_gtk_text_buffer w.native v1
  wrapTextBuffer p (w.call (Call.gspell_text_buffer_get_from_gtk_text_buffer v1) n)

def TextBuffer.GetSpellChecker {N : Type} (lib : Lib N) (t : TextBuffer) (w : World N) :
    Checker × World N :=
  let p := lib.gspell_text_buffer_get_spell_checker w.native t.native
  wrapChecker p (w.call (Call.gspell_text_buffer_get_spell_checker t.native) w.native)

def TextBuffer.SetSpellChecker {N : Type} (lib : Lib N) (t : TextBuffer)
    (spellChecker : Checker) (w : World N) : World N :=
  let v1 := spellChecker.Object.Native
  w.call (Call.gspell_text_buffer_set_spell_checker t.native v1)
    (lib.gspell_text_buffer_set_spell_checker w.native t.native v1)

def wrapTextView {N : Type} (ptr : Handle) (w : World N) : TextView × World N :=
  let (obj, w1) := glib.Take ptr w
  let (a, w2) := w1.new
  (⟨a, obj⟩, w2)

def TextView.native (t : TextView) : Handle :=
  t.Object.Native

def GetFromGtkTextView {N : Type} (lib : Lib N) (gtkView : gtk.Widget) (w : World N) :
    TextView × World N :=
  let v1 := gtkView.Object.Native
  let (p, n) := lib.gspell_text_view_get_from_gtk_text_view w.native v1
  wrapTextView p (w.call (Call.gspell_text_view_get_from_gtk_text_view v1) n)

def TextView.BasicSetup {N : Type} (lib : Lib N) (t : TextView) (w : World N) : World N :=
  w.call (Call.gspell_text_view_basic_setup t.native)
    (lib.gspell_text_view_basic_setup w.native t.native)

def TextView.GetEnableLanguageMenu {N : Type} (lib : Lib N) (t : TextView) (w : World N) :
    Bool × World N :=
  let r := gobool (lib.gspell_text_view_get_enable_language_menu w.native t.native)
  (r, w.call (Call.gspell_text_view_get_enable_language_menu t.native) w.native)

def TextView.GetInlineSpellChecking {N : Type} (lib : Lib N) (t : TextView) (w : World N) :
    Bool × World N :=
  let r := gobool (lib.gspell_text_view_get_inline_spell_checking w.native t.native)
  (r, w.call (Call.gspell_text_view_get_inline_spell_checking t.native) w.native)

def TextView.GetView {N : Type} (lib : Lib N) (t : TextView) (w : World N) :
    gtk.Widget × World N :=
  let p := lib.gspell_text_view_get_view w.native t.native
  let (obj, w1) := glib.Take p (w.call (Call.gspell_text_view_get_view t.native) w.native)
  let (a, w2) := w1.new
  (⟨a, obj⟩, w2)

def TextView.SetEnableLanguageMenu {N : Type} (lib : Lib N) (t : TextView)
    (enableLanguageMenu : Bool) (w : World N) : World N :=
  let v1 := cbool enableLanguageMenu
  w.call (Call.gspell_text_view_set_enable_language_menu t.native v1)
    (lib.gspell_text_view_set_enable_language_menu w.native t.native v1)

def TextView.SetInlineSpellChecking {N : Type} (lib : Lib N) (t : TextView) (enable : Bool)
    (w : World N) : World N :=
  let v1 := cbool enable
  w.call (Call.gspell_text_view_set_inline_spell_checking t.native v1)
    (lib.gspell_text_view_set_inline_spell_checking w.native t.native v1)

/-! ## `Language` (source lines 769-813) -/

/-- Embedding of `Compare`: the receiver is the first native argument, `languageB` the
second; the `gint` result is widened to `int` without change. -/
def Language.Compare {N : Type} (lib : Lib N) (l languageB : Language) (w : World N) :
    Int × World N :=
  let v1 := Language.Native languageB
  let r := lib.gspell_language_compare w.native (Language.native l) v1
  (r, w.call (Call.gspell_language_compare (Language.native l) v1) w.native)

def Language.GetCode {N : Type} (lib : Lib N) (l : Language) (w : World N) :
    GoString × World N :=
  let r := C.GoString (lib.gspell_language_get_code w.native (Language.native l))
  (r, w.call (Call.gspell_language_get_code (Language.native l)) w.native)

def Language.GetName {N : Type} (lib : Lib N) (l : Language) (w : World N) :
    GoString × World N :=
  let r := C.GoString (lib.gspell_language_get_name w.native (Language.native l))
  (r, w.call (Call.gspell_language_get_name (Language.native l)) w.native)

/-! ## Observations on traces -/

/-- The gspell and GTK calls made between world `w` and the later world `w2`. -/
def callsSince {N : Type} (w w2 : World N) : List Call :=
  nativeCalls (w2.trace.drop w.trace.length)

/-- The `char*` arguments of a call, in argument order. -/
def Call.strings : Call → List CStrArg
  | Call.gspell_language_lookup a => [a]
  | Call.gspell_language_chooser_set_language_code _ a => [a]
  | Call.gspell_navigator_change _ a b => [a, b]
  | Call.gspell_navigator_change_all _ a b => [a, b]
  | Call.gspell_checker_add_word_to_personal _ a _ => [a]
  | Call.gspell_checker_add_word_to_session _ a _ => [a]
  | Call.gspell_checker_check_word _ a _ _ => [a]
  | Call.gspell_checker_get_suggestions _ a _ => [a]
  | Call.gspell_checker_set_correction _ a _ b _ => [a, b]
  | _ => []

/-- The `char*` arguments of a call that come without a byte length: the
native function reads each of them as a NUL-terminated string. -/
def Call.terminated : Call → List CStrArg
  | Call.gspell_language_lookup a => [a]
  | Call.gspell_language_chooser_set_language_code _ a => [a]
  | Call.gspell_navigator_change _ a b => [a, b]
  | Call.gspell_navigator_change_all _ a b => [a, b]
  | _ => []

/-- The `char*` arguments of a call that come with a byte length, each with the
length passed next to it. -/
def Call.sized : Call → List (CStrArg × Int)
  | Call.gspell_checker_add_word_to_personal _ a n => [(a, n)]
  | Call.gspell_checker_add_word_to_session _ a n => [(a, n)]
  | Call.gspell_checker_check_word _ a n _ => [(a, n)]
  | Call.gspell_checker_get_suggestions _ a n => [(a, n)]
  | Call.gspell_checker_set_correction _ a n b m => [(a, n), (b, m)]
  | _ => []

/-- The C strings the native side read between `w` and `w2` through `char*`
arguments passed without a length, in order. -/
def stringsReceived {N : Type} (w w2 : World N) : List (List Byte) :=
  ((callsSince w w2).map Call.terminated).flatten.map CStrArg.content

/-- The `char*` arguments handed over with a byte length between `w` and `w2`,
each with its length, in order. -/
def sizedReceived {N : Type} (w w2 : World N) : List (CStrArg × Int) :=
  ((callsSince w w2).map Call.sized).flatten

/-- The first `n` bytes of the block behind a `char*` argument. -/
def CStrArg.firstBytes (a : CStrArg) (n : Nat) : List Byte :=
  match a.block with
  | some bytes => bytes.take n
  | none => []

/-- Whether a call is the correction notification
`gspell_checker_set_correction`. -/
def Call.isSetCorrection : Call → Bool
  | Call.gspell_checker_set_correction _ _ _ _ _ => true
  | _ => false

/-! ## The step sequences named by the documentation of `BasicSetup` -/

/-- The C sequence the source comment gives for `gspell_text_view_basic_setup`
(source lines 712-726), on the native state. -/
def nativeTextViewSteps {N : Type} (lib : Lib N) (n : N) (view : Handle) : N :=
  let (checker, n1) := lib.gspell_checker_new n 0
  let gtkView := lib.gspell_text_view_get_view n1 view
  let gtkBuffer := lib.gtk_text_view_get_buffer n1 gtkView
  let (buffer, n2) := lib.gspell_text_buffer_get_from_gtk_text_buffer n1 gtkBuffer
  let n3 := lib.gspell_text_buffer_set_spell_checker n2 buffer checker
  let n4 := lib.gspell_text_view_set_inline_spell_checking n3 view TRUE
  lib.gspell_text_view_set_enable_language_menu n4 view TRUE

/-- The C sequence the source comment gives for `gspell_entry_basic_setup`
(source lines 394-407), on the native state. -/
def nativeEntrySteps {N : Type} (lib : Lib N) (n : N) (entry : Handle) : N :=
  let (checker, n1) := lib.gspell_checker_new n 0
  let gtkEntry := lib.gspell_entry_get_entry n1 entry
  let gtkBuffer := lib.gtk_entry_get_buffer n1 gtkEntry
  let (buffer, n2) := lib.gspell_entry_buffer_get_from_gtk_entry_buffer n1 gtkBuffer
  let n3 := lib.gspell_entry_buffer_set_spell_checker n2 buffer checker
  lib.gspell_entry_set_inline_spell_checking n3 entry TRUE

/-- Embedding of `(*gtk.TextView).GetBuffer()` of gotk3: `gtk_text_view_get_buffer` and a
wrapper around the result. -/
def gtk.TextView.GetBuffer {N : Type} (lib : Lib N) (v : gtk.Widget) (w : World N) :
    gtk.Widget × World N :=
  let p := lib.gtk_text_view_get_buffer w.native v.Object.Native
  let (obj, w1) := glib.Take p (w.call (Call.gtk_text_view_get_buffer v.Object.Native) w.native)
  let (a, w2) := w1.new
  (⟨a, obj⟩, w2)

/-- Embedding of `(*gtk.Entry).GetBuffer()` of gotk3: `gtk_entry_get_buffer` and a wrapper
around the result. -/
def gtk.Entry.GetBuffer {N : Type} (lib : Lib N) (v : gtk.Widget) (w : World N) :
    gtk.Widget × World N :=
  let p := lib.gtk_entry_get_buffer w.native v.Object.Native
  let (obj, w1) := glib.Take p (w.call (Call.gtk_entry_get_buffer v.Object.Native) w.native)
  let (a, w2) := w1.new
  (⟨a, obj⟩, w2)

/-- The step sequence of the specification for a text view, written with the
operations of the binding: create a checker with the default language, attach
it to the buffer association of the view, enable inline checking, enable the
language menu. -/
def TextView.BasicSetupSteps {N : Type} (lib : Lib N) (t : TextView) (w : World N) : World N :=
  let (checker, w1) := CheckerNew lib 0 w
  let (gtkView, w2) := t.GetView lib w1
  let (gtkBuffer, w3) := gtk.TextView.GetBuffer lib gtkView w2
  let (buffer, w4) := GetFromGtkTextBuffer lib gtkBuffer w3
  let w5 := buffer.SetSpellChecker lib checker w4
  let w6 := t.SetInlineSpellChecking lib true w5
  t.SetEnableLanguageMenu lib true w6

/-- The step sequence of the specification for an entry, written with the
operations of the binding: create a checker with the default language, attach
it to the buffer association of the entry, enable inline checking. -/
def Entry.BasicSetupSteps {N : Type} (lib : Lib N) (e : Entry) (w : World N) : World N :=
  let (checker, w1) := CheckerNew lib 0 w
  let (gtkEntry, w2) := e.GetEntry lib w1
  let (gtkBuffer, w3) := gtk.Entry.GetBuffer lib gtkEntry w2
  let (buffer, w4) := GetFromGtkEntryBuffer lib gtkBuffer w3
  let w5 := buffer.SetSpellChecker lib checker w4
  e.SetInlineSpellChecking lib true w5

/-! ## A small native library, used to run the binding on concrete inputs

Two languages are installed: handle `101`, code `"aa"`, name `"Zebra"`, and
handle `102`, code `"zz"`, name `"Aardvark"`.  The dictionary of every language
holds the single word `"hi"`. -/

/-- State of the small library. -/
structure Fake where
  /-- Last object handle created. -/
  fresh : Nat
  /-- Language of each checker, latest entry first. -/
  checkerLang : List (Handle × Handle)
  /-- Checker attached to each gspell buffer, latest entry first. -/
  attached : List (Handle × Handle)
  /-- Inline-checking flag of each view or entry, latest entry first. -/
  inline : List (Handle × Int)
  /-- Language-menu flag of each view, latest entry first. -/
  menu : List (Handle × Int)
deriving DecidableEq, Repr

/-- Latest value recorded for `k`, or `d`. -/
def Fake.get {α : Type} (l : List (Handle × α)) (k : Handle) (d : α) : α :=
  match l.find? (fun e => e.1 == k) with
  | some e => e.2
  | none => d

/-- Three-way comparison of byte strings in lexicographic order. -/
def bytesCompare : List Byte → List Byte → Int
  | [], [] => 0
  | [], _ :: _ => -1
  | _ :: _, [] => 1
  | a :: as, b :: bs => if a < b then -1 else if b < a then 1 else bytesCompare as bs

/-- Code of an installed language, as a NUL-terminated block. -/
def Fake.code (l : Handle) : Option (List Byte) :=
  if l = 101 then some [97, 97, 0] else if l = 102 then some [122, 122, 0] else none

/-- Display name of an installed language, as a NUL-terminated block. -/
def Fake.name (l : Handle) : Option (List Byte) :=
  if l = 101 then some [90, 101, 98, 114, 97, 0]
  else if l = 102 then some [65, 97, 114, 100, 118, 97, 114, 107, 0]
  else none

/-- Language found for a code. -/
def Fake.lookup (a : CStrArg) : Handle :=
  if a.content = [97, 97] then 101 else if a.content = [122, 122] then 102 else 0

/-- Creation of a checker: a NULL language selects the default language `101`. -/
def Fake.checkerNew (n : Fake) (language : Handle) : Handle × Fake :=
  let h := n.fresh + 1
  (h, ⟨h, (h, if language = 0 then 101 else language) :: n.checkerLang, n.attached, n.inline,
    n.menu⟩)

/-- The small library. -/
def fakeLib : Lib Fake where
  gspell_language_get_available := fun _ => [101, 102]
  gspell_language_get_default := fun _ => 101
  gspell_language_lookup := fun _ a => Fake.lookup a
  gspell_language_get_code := fun _ l => Fake.code l
  gspell_language_get_name := fun _ l => Fake.name l
  gspell_language_compare := fun _ a b =>
    bytesCompare (C.GoString (Fake.name a)) (C.GoString (Fake.name b))
  gspell_language_chooser_get_language := fun _ _ => 0
  gspell_language_chooser_get_language_code := fun _ _ => some [0]
  gspell_language_chooser_set_language := fun n _ _ => n
  gspell_language_chooser_set_language_code := fun n _ _ => n
  gspell_navigator_change := fun n _ _ _ => n
  gspell_navigator_change_all := fun n _ _ _ => n
  gspell_checker_new := Fake.checkerNew
  gspell_checker_add_word_to_personal := fun n _ _ _ => n
  gspell_checker_add_word_to_session := fun n _ _ _ => n
  gspell_checker_check_word := fun n c a _ _ =>
    if Fake.get n.checkerLang c 0 = 0 then ((TRUE, none), n)
    else if a.content = [104, 105] then ((TRUE, none), n)
    else ((FALSE, none), n)
  gspell_checker_clear_session := fun n _ => n
  gspell_checker_get_language := fun n c => Fake.get n.checkerLang c 0
  gspell_checker_get_suggestions := fun n _ _ _ => (0, n)
  gspell_checker_set_correction := fun n _ _ _ _ _ => n
  gspell_checker_set_language := fun n c l =>
    ⟨n.fresh, (c, if l = 0 then 101 else l) :: n.checkerLang, n.attached, n.inline, n.menu⟩
  gspell_entry_get_from_gtk_entry := fun n e => (e + 500, n)
  gspell_entry_basic_setup := fun n e =>
    let r := Fake.checkerNew n 0
    ⟨r.2.fresh, r.2.checkerLang, (e - 500 + 2000 + 3000 + 1000, r.1) :: r.2.attached,
      (e, TRUE) :: r.2.inline, r.2.menu⟩
  gspell_entry_get_entry := fun _ e => e - 500 + 2000
  gspell_entry_get_inline_spell_checking := fun n e => Fake.get n.inline e FALSE
  gspell_entry_set_inline_spell_checking := fun n e b =>
    ⟨n.fresh, n.checkerLang, n.attached, (e, b) :: n.inline, n.menu⟩
  gspell_entry_buffer_get_from_gtk_entry_buffer := fun n b => (b + 1000, n)
  gspell_entry_buffer_get_spell_checker := fun n b => Fake.get n.attached b 0
  gspell_entry_buffer_set_spell_checker := fun n b c =>
    ⟨n.fresh, n.checkerLang, (b, c) :: n.attached, n.inline, n.menu⟩
  gspell_text_buffer_get_from_gtk_text_buffer := fun n b => (b + 1000, n)
  gspell_text_buffer_get_spell_checker := fun n b => Fake.get n.attached b 0
  gspell_text_buffer_set_spell_checker := fun n b c =>
    ⟨n.fresh, n.checkerLang, (b, c) :: n.attached, n.inline, n.menu⟩
  gspell_text_view_get_from_gtk_text_view := fun n v => (v + 500, n)
  gspell_text_view_basic_setup := fun n v =>
    let r := Fake.checkerNew n 0
    ⟨r.2.fresh, r.2.checkerLang, (v - 500 + 2000 + 3000 + 1000, r.1) :: r.2.attached,
      (v, TRUE) :: r.2.inline, (v, TRUE) :: r.2.menu⟩
  gspell_text_view_get_enable_language_menu := fun n v => Fake.get n.menu v FALSE
  gspell_text_view_get_inline_spell_checking := fun n v => Fake.get n.inline v FALSE
  gspell_text_view_get_view := fun _ v => v - 500 + 2000
  gspell_text_view_set_enable_language_menu := fun n v b =>
    ⟨n.fresh, n.checkerLang, n.attached, n.inline, (v, b) :: n.menu⟩
  gspell_text_view_set_inline_spell_checking := fun n v b =>
    ⟨n.fresh, n.checkerLang, n.attached, (v, b) :: n.inline, n.menu⟩
  gtk_text_view_get_buffer := fun _ v => v + 3000
  gtk_entry_get_buffer := fun _ e => e + 3000

/-- The error a spell-checker function raises when no language is set: domain
`GSPELL_CHECKER_ERROR` (quark `1` here), code `CheckerErrorNoLanguageSet`. -/
def noLanguageSetError : GError :=
  ⟨1, CheckerErrorNoLanguageSet, [110, 111]⟩

/-- The small library, except that `gspell_checker_check_word` fails: it
returns `FALSE` and raises `noLanguageSetError`. -/
def erringLib : Lib Fake :=
  { fakeLib with
    gspell_checker_check_word := fun n _ _ _ _ => ((FALSE, some noLanguageSetError), n) }

/-- The small library, except that `gspell_checker_check_word` answers
"misspelled": it returns `FALSE` and raises no error. -/
def quietLib : Lib Fake :=
  { fakeLib with
    gspell_checker_check_word := fun n _ _ _ _ => ((FALSE, none), n) }

/-- Initial state of the small library: one checker `7` with the language
`101`, one checker `8` whose language is unset. -/
def fake0 : Fake :=
  ⟨50, [(7, 101), (8, 0)], [], [], []⟩

/-- An initial world over the small library. -/
def world0 : World Fake :=
  ⟨fake0, 0, [], 20, []⟩

/-- A `*Checker` for the native checker `7` (language `101`). -/
def checker7 : Checker :=
  ⟨2, ⟨1, 7⟩⟩

/-- A `*Checker` for the native checker `8` (language unset). -/
def checker8 : Checker :=
  ⟨4, ⟨3, 8⟩⟩

/-- A `*gtk.TextBuffer` (or `*gtk.EntryBuffer`) for the native buffer `9`. -/
def gtkBuffer9 : gtk.Widget :=
  ⟨6, ⟨5, 9⟩⟩

/-- A `*Navigator` for the native navigator `10`. -/
def navigator10 : Navigator :=
  ⟨8, ⟨7, 10⟩⟩

/-- A `*TextView` for the native gspell view `511`. -/
def textView511 : TextView :=
  ⟨10, ⟨9, 511⟩⟩

/-- An `*Entry` for the native gspell entry `512`. -/
def entry512 : Entry :=
  ⟨12, ⟨11, 512⟩⟩

/-- A state of the small library in which the checker `7` is already attached
to the gspell buffer `6011`, the buffer of the view `511`. -/
def fake1 : Fake :=
  ⟨50, [(7, 101), (8, 0)], [(6011, 7)], [], []⟩

/-- A world over `fake1`. -/
def world1 : World Fake :=
  ⟨fake1, 0, [], 20, []⟩

/-! ## Transient native strings -/

/-- The events added between world `w` and the later world `w2`. -/
def eventsSince {N : Type} (w w2 : World N) : List Event :=
  w2.trace.drop w.trace.length

/-- Discipline of transient strings on an event list, given the blocks
allocated so far: further `C.CString` allocations at addresses not yet in use,
then one native call whose `char*` arguments are the allocated blocks, each
live with the bytes it was allocated with, then one `C.free` per allocated
block, the latest block first, and nothing else. -/
def scopedFrom (allocs : List (Nat × List Byte)) : List Event → Bool
  | Event.CString p bytes :: rest =>
      !(allocs.any (fun a => a.1 == p)) && scopedFrom (allocs ++ [(p, bytes)]) rest
  | Event.native c :: rest =>
      decide (c.strings = allocs.map (fun a => (⟨a.1, some a.2⟩ : CStrArg))) &&
        decide (rest = allocs.reverse.map (fun a => Event.free a.1))
  | _ => false

/-- Discipline of transient strings on the events of one operation. -/
def scopedStrings (evs : List Event) : Bool :=
  scopedFrom [] evs

/-- Every live block of the C heap sits at an address the allocator has
handed out. -/
def World.heapOk {N : Type} (w : World N) : Bool :=
  w.cmem.all (fun e => decide (e.1 ≤ w.cnext))

/-- A world over the small library in which one C block is live. -/
def world2 : World Fake :=
  ⟨fake0, 3, [(2, [120, 0])], 20, []⟩

/-! ## Value marshalers (source lines 44-63, 69-71, 206-208, 331-333, 366-368,
446-448, 511-513, 555-557, 592-594, 634-636, 683-685, 771-773) -/

/-- The GObject readers of a `GValue` the marshalers call; the argument is the
address of the `GValue`. -/
structure GValueLib (N : Type) where
  g_value_get_enum : N → Handle → Int
  g_value_get_object : N → Handle → Handle
  g_value_get_boxed : N → Handle → Handle

/-- A `*CheckerDialog`. -/
structure CheckerDialog where
  addr : Nat
  Object : glib.Object
deriving DecidableEq, Repr

/-- A `*LanguageChooserButton`: the button object, the embedded
`LanguageChooserer` (a `*LanguageChooser`) and the `gtk.Actionable`. -/
structure LanguageChooserButton where
  addr : Nat
  Object : glib.Object
  LanguageChooserer : LanguageChooser
  Actionable : glib.Object
deriving DecidableEq, Repr

/-- A `*LanguageChooserDialog`: the dialog object and the embedded
`LanguageChooserer` (a `*LanguageChooser`). -/
structure LanguageChooserDialog where
  addr : Nat
  Object : glib.Object
  LanguageChooserer : LanguageChooser
deriving DecidableEq, Repr

/-- A `*NavigatorTextView`: the object and the embedded `Navigatorer` (a
`*Navigator`). -/
structure NavigatorTextView where
  addr : Nat
  Object : glib.Object
  Navigatorer : Navigator
deriving DecidableEq, Repr

/-- The Go types a marshaler of this file can return as the dynamic type of its
`interface{}` result.  `PtrCGspellLanguage` is the cgo type `*C.GspellLanguage`;
`PtrLanguage` is `*Language`, a different Go type with the same representation. -/
inductive GoType where
  | CheckerError
  | PtrChecker
  | PtrCheckerDialog
  | PtrEntry
  | PtrEntryBuffer
  | PtrLanguageChooserButton
  | PtrLanguageChooserDialog
  | PtrNavigatorTextView
  | PtrTextBuffer
  | PtrTextView
  | PtrLanguage
  | PtrCGspellLanguage
deriving DecidableEq, Repr

/-- A Go `interface{}` value returned by a marshaler: the dynamic type (the
constructor) and the value. -/
inductive GoValue where
  | CheckerError (v : CheckerError)
  | PtrChecker (v : Checker)
  | PtrCheckerDialog (v : CheckerDialog)
  | PtrEntry (v : Entry)
  | PtrEntryBuffer (v : EntryBuffer)
  | PtrLanguageChooserButton (v : LanguageChooserButton)
  | PtrLanguageChooserDialog (v : LanguageChooserDialog)
  | PtrNavigatorTextView (v : NavigatorTextView)
  | PtrTextBuffer (v : TextBuffer)
  | PtrTextView (v : TextView)
  | PtrLanguage (v : Language)
  | PtrCGspellLanguage (v : Handle)
deriving DecidableEq, Repr

/-- Dynamic type of an interface value. -/
def GoValue.typeOf : GoValue → GoType
  | GoValue.CheckerError _ => GoType.CheckerError
  | GoValue.PtrChecker _ => GoType.PtrChecker
  | GoValue.PtrCheckerDialog _ => GoType.PtrCheckerDialog
  | GoValue.PtrEntry _ => GoType.PtrEntry
  | GoValue.PtrEntryBuffer _ => GoType.PtrEntryBuffer
  | GoValue.PtrLanguageChooserButton _ => GoType.PtrLanguageChooserButton
  | GoValue.PtrLanguageChooserDialog _ => GoType.PtrLanguageChooserDialog
  | GoValue.PtrNavigatorTextView _ => GoType.PtrNavigatorTextView
  | GoValue.PtrTextBuffer _ => GoType.PtrTextBuffer
  | GoValue.PtrTextView _ => GoType.PtrTextView
  | GoValue.PtrLanguage _ => GoType.PtrLanguage
  | GoValue.PtrCGspellLanguage _ => GoType.PtrCGspellLanguage

/-- The Go type assertion `v.(*Language)`: it succeeds only on a value whose
dynamic type is `*Language`. -/
def GoValue.assertLanguage : GoValue → Option Language
  | GoValue.PtrLanguage l => some l
  | _ => none

/-- A Go `error`; `none` is `nil`. -/
abbrev GoError := Option (List Byte)

/-- Result of a marshaler: `(interface{}, error)` and the next world. -/
abbrev Marshaled (N : Type) := (GoValue × GoError) × World N

def wrapCheckerDialog {N : Type} (ptr : Handle) (w : World N) : CheckerDialog × World N :=
  let (obj, w1) := glib.Take ptr w
  let (a, w2) := w1.new
  (⟨a, obj⟩, w2)

def wrapLanguageChooserButton {N : Type} (ptr : Handle) (w : World N) :
    LanguageChooserButton × World N :=
  let (obj, w1) := glib.Take ptr w
  let (a1, w2) := w1.new
  let (a, w3) := w2.new
  (⟨a, obj, ⟨a1, obj⟩, obj⟩, w3)

def wrapLanguageChooserDialog {N : Type} (ptr : Handle) (w : World N) :
    LanguageChooserDialog × World N :=
  let (obj, w1) := glib.Take ptr w
  let (a1, w2) := w1.new
  let (a, w3) := w2.new
  (⟨a, obj, ⟨a1, obj⟩⟩, w3)

def wrapNavigatorTextView {N : Type} (ptr : Handle) (w : World N) :
    NavigatorTextView × World N :=
  let (obj, w1) := glib.Take ptr w
  let (a1, w2) := w1.new
  let (a, w3) := w2.new
  (⟨a, obj, ⟨a1, obj⟩⟩, w3)

def marshalCheckerError {N : Type} (gv : GValueLib N) (p : Handle) (w : World N) : Marshaled N :=
  ((GoValue.CheckerError (gv.g_value_get_enum w.native p), none), w)

def marshalChecker {N : Type} (gv : GValueLib N) (p : Handle) (w : World N) : Marshaled N :=
  let r := wrapChecker (gv.g_value_get_object w.native p) w
  ((GoValue.PtrChecker r.1, none), r.2)

def marshalCheckerDialog {N : Type} (gv : GValueLib N) (p : Handle) (w : World N) :
    Marshaled N :=
  let r := wrapCheckerDialog (gv.g_value_get_object w.native p) w
  ((GoValue.PtrCheckerDialog r.1, none), r.2)

def marshalEntry {N : Type} (gv : GValueLib N) (p : Handle) (w : World N) : Marshaled N :=
  let r := wrapEntry (gv.g_value_get_object w.native p) w
  ((GoValue.PtrEntry r.1, none), r.2)

def marshalEntryBuffer {N : Type} (gv : GValueLib N) (p : Handle) (w : World N) : Marshaled N :=
  let r := wrapEntryBuffer (gv.g_value_get_object w.native p) w
  ((GoValue.PtrEntryBuffer r.1, none), r.2)

def marshalLanguageChooserButton {N : Type} (gv : GValueLib N) (p : Handle) (w : World N) :
    Marshaled N :=
  let r := wrapLanguageChooserButton (gv.g_value_get_object w.native p) w
  ((GoValue.PtrLanguageChooserButton r.1, none), r.2)

def marshalLanguageChooserDialog {N : Type} (gv : GValueLib N) (p : Handle) (w : World N) :
    Marshaled N :=
  let r := wrapLanguageChooserDialog (gv.g_value_get_object w.native p) w
  ((GoValue.PtrLanguageChooserDialog r.1, none), r.2)

def marshalNavigatorTextView {N : Type} (gv : GValueLib N) (p : Handle) (w : World N) :
    Marshaled N :=
  let r := wrapNavigatorTextView (gv.g_value_get_object w.native p) w
  ((GoValue.PtrNavigatorTextView r.1, none), r.2)

def marshalTextBuffer {N : Type} (gv : GValueLib N) (p : Handle) (w : World N) : Marshaled N :=
  let r := wrapTextBuffer (gv.g_value_get_object w.native p) w
  ((GoValue.PtrTextBuffer r.1, none), r.2)

def marshalTextView {N : Type} (gv : GValueLib N) (p : Handle) (w : World N) : Marshaled N :=
  let r := wrapTextView (gv.g_value_get_object w.native p) w
  ((GoValue.PtrTextView r.1, none), r.2)

/-- Embedding of `marshalLanguage` (source lines 771-773): the boxed pointer is
converted to `*C.GspellLanguage` and returned with that dynamic type. -/
def marshalLanguage {N : Type} (gv : GValueLib N) (p : Handle) (w : World N) : Marshaled N :=
  ((GoValue.PtrCGspellLanguage (gv.g_value_get_boxed w.native p), none), w)

/-- The native types registered in `init`, named by their `get_type`
function. -/
inductive GType where
  | gspell_checker_error
  | gspell_checker
  | gspell_checker_dialog
  | gspell_entry
  | gspell_entry_buffer
  | gspell_language_chooser_button
  | gspell_language_chooser_dialog
  | gspell_navigator_text_view
  | gspell_text_buffer
  | gspell_text_view
  | gspell_language
deriving DecidableEq, Repr

/-- Embedding of `init` (source lines 44-63): the table handed to
`glib.RegisterGValueMarshalers`, in source order. -/
def init {N : Type} (gv : GValueLib N) : List (GType × (Handle → World N → Marshaled N)) :=
  [(GType.gspell_checker_error, marshalCheckerError gv),
    (GType.gspell_checker, marshalChecker gv),
    (GType.gspell_checker_dialog, marshalCheckerDialog gv),
    (GType.gspell_entry, marshalEntry gv),
    (GType.gspell_entry_buffer, marshalEntryBuffer gv),
    (GType.gspell_language_chooser_button, marshalLanguageChooserButton gv),
    (GType.gspell_language_chooser_dialog, marshalLanguageChooserDialog gv),
    (GType.gspell_navigator_text_view, marshalNavigatorTextView gv),
    (GType.gspell_text_buffer, marshalTextBuffer gv),
    (GType.gspell_text_view, marshalTextView gv),
    (GType.gspell_language, marshalLanguage gv)]

/-- The wrapper type of this package for each registered native type, as the
specification of the marshalers names it: `CheckerError` for the error enum,
the pointer to the wrapper struct for each class, `*Language` for the boxed
language. -/
def wrapperTypeOf : GType → GoType
  | GType.gspell_checker_error => GoType.CheckerError
  | GType.gspell_checker => GoType.PtrChecker
  | GType.gspell_checker_dialog => GoType.PtrCheckerDialog
  | GType.gspell_entry => GoType.PtrEntry
  | GType.gspell_entry_buffer => GoType.PtrEntryBuffer
  | GType.gspell_language_chooser_button => GoType.PtrLanguageChooserButton
  | GType.gspell_language_chooser_dialog => GoType.PtrLanguageChooserDialog
  | GType.gspell_navigator_text_view => GoType.PtrNavigatorTextView
  | GType.gspell_text_buffer => GoType.PtrTextBuffer
  | GType.gspell_text_view => GoType.PtrTextView
  | GType.gspell_language => GoType.PtrLanguage

/-- A `GValue` store for concrete runs: the `GValue` at address `p` holds the
enum value `1`, the object `p + 100` and the boxed pointer `101`. -/
def fakeGValues : GValueLib Fake where
  g_value_get_enum := fun _ _ => 1
  g_value_get_object := fun _ p => p + 100
  g_value_get_boxed := fun _ _ => 101

/-! ## Theorems -/

/-- C1: the `CheckerError` constants have the values fixed by the native ABI,
`CheckerErrorDictionary = 0` and `CheckerErrorNoLanguageSet = 1`, and the two
constants are distinct. -/
theorem checkerError_values :
    CheckerErrorDictionary = 0 ∧ CheckerErrorNoLanguageSet = 1 ∧
      CheckerErrorDictionary ≠ CheckerErrorNoLanguageSet := by
  refine ⟨rfl, rfl, ?_⟩
  decide

/-! ### Marshalling of strings -/

theorem cstrOf_append_nul (s : List Byte) : cstrOf (s ++ [0]) = cstrOf s := by
  induction s with
  | nil => simp [cstrOf]
  | cons a t ih =>
    by_cases h : a = 0
    · simp [cstrOf, h]
    · simp only [cstrOf] at ih
      simp only [cstrOf, List.cons_append, List.takeWhile_cons, ih]

theorem cstrOf_eq_self_iff (s : List Byte) : cstrOf s = s ↔ (0 : Byte) ∉ s := by
  unfold cstrOf
  rw [List.takeWhile_eq_self_iff]
  constructor
  · intro h hm
    simpa using h 0 hm
  · intro h x hx
    have : x ≠ 0 := fun e => h (e ▸ hx)
    simpa using this

theorem zero_not_mem_cstrOf (s : List Byte) : (0 : Byte) ∉ cstrOf s := by
  intro h
  have := List.mem_takeWhile_imp h
  simp at this

theorem callsSince_of_trace {N : Type} (w w2 : World N) (l : List Event)
    (h : w2.trace = w.trace ++ l) : callsSince w w2 = nativeCalls l := by
  simp [callsSince, h]

/-! ### `Checker.CheckWord` -/

theorem CheckWord_trace {N : Type} (lib : Lib N) (c : Checker) (word : GoString)
    (wordLength : Int) (w : World N) :
    (Checker.CheckWord lib c word wordLength w).2.trace =
      w.trace ++ [Event.CString (w.cnext + 1) (word ++ [0]),
        Event.native (Call.gspell_checker_check_word c.native ⟨w.cnext + 1, some (word ++ [0])⟩
          (C.gssize wordLength) 0),
        Event.free (w.cnext + 1)] := by
  simp [Checker.CheckWord, C.CString, C.free, World.call, World.emit, World.setNative, World.arg,
    World.block]

theorem CheckWord_value {N : Type} (lib : Lib N) (c : Checker) (word : GoString)
    (wordLength : Int) (w : World N) :
    (Checker.CheckWord lib c word wordLength w).1 =
      gobool (lib.gspell_checker_check_word w.native c.native ⟨w.cnext + 1, some (word ++ [0])⟩
        (C.gssize wordLength) 0).1.1 := by
  simp [Checker.CheckWord, C.CString, World.arg, World.block]

/-- C2, as stated, fails: a native check-word call that returns `FALSE` and
raises the "no language set" error makes `CheckWord` return plain `false`, with
the same result and the same world as a native call that returns `FALSE`
without any error. -/
theorem checkWord_error_not_propagated :
    (erringLib.gspell_checker_check_word world0.native checker7.native ⟨1, some [120, 0]⟩
        (C.gssize 1) 0).1 = (FALSE, some noLanguageSetError) ∧
      (quietLib.gspell_checker_check_word world0.native checker7.native ⟨1, some [120, 0]⟩
        (C.gssize 1) 0).1 = (FALSE, none) ∧
      Checker.CheckWord erringLib checker7 [120] 1 world0 =
        Checker.CheckWord quietLib checker7 [120] 1 world0 ∧
      (Checker.CheckWord erringLib checker7 [120] 1 world0).1 = false := by
  decide

/-- C2, amended: `CheckWord` makes one native call, `gspell_checker_check_word`
with a NULL error location, and its result is the returned `gboolean` converted
by `gobool`; the result does not depend on the error the native call raises. -/
theorem checkWord_returns_gboolean_only {N : Type} (lib : Lib N) (c : Checker)
    (word : GoString) (wordLength : Int) (w : World N) :
    callsSince w (Checker.CheckWord lib c word wordLength w).2 =
        [Call.gspell_checker_check_word c.native ⟨w.cnext + 1, some (word ++ [0])⟩
          (C.gssize wordLength) 0] ∧
      (Checker.CheckWord lib c word wordLength w).1 =
        gobool (lib.gspell_checker_check_word w.native c.native
          ⟨w.cnext + 1, some (word ++ [0])⟩ (C.gssize wordLength) 0).1.1 := by
  refine ⟨?_, CheckWord_value lib c word wordLength w⟩
  rw [callsSince_of_trace w _ _ (CheckWord_trace lib c word wordLength w)]
  rfl

/-! ### Buffer associations -/

/-- C3, evaluated on the code: two calls of `GetFromGtkTextBuffer` (and of
`GetFromGtkEntryBuffer`) on the same buffer return two different wrappers,
although the native accessor returns the same object `1009` both times and
the source comment promises that the returned object is the same for the
lifetime of the buffer. -/
theorem getFromGtkBuffer_fresh_wrapper :
    (GetFromGtkTextBuffer fakeLib gtkBuffer9 world0).1 ≠
        (GetFromGtkTextBuffer fakeLib gtkBuffer9
          (GetFromGtkTextBuffer fakeLib gtkBuffer9 world0).2).1 ∧
      (GetFromGtkEntryBuffer fakeLib gtkBuffer9 world0).1 ≠
        (GetFromGtkEntryBuffer fakeLib gtkBuffer9
          (GetFromGtkEntryBuffer fakeLib gtkBuffer9 world0).2).1 ∧
      (GetFromGtkTextBuffer fakeLib gtkBuffer9 world0).1.native = 1009 ∧
      (GetFromGtkTextBuffer fakeLib gtkBuffer9
        (GetFromGtkTextBuffer fakeLib gtkBuffer9 world0).2).1.native = 1009 := by
  decide

/-- Native identity of the buffer associations: when the native accessor
returns the same object for a buffer on a second call, two calls of
`GetFromGtkTextBuffer` (and likewise of `GetFromGtkEntryBuffer`) on that buffer
return wrappers with the same native handle; the two wrappers are separate Go
allocations. -/
theorem getFromGtkBuffer_same_native {N : Type} (lib : Lib N) (b : gtk.Widget) (w : World N)
    (htext : ∀ n h, (lib.gspell_text_buffer_get_from_gtk_text_buffer
        (lib.gspell_text_buffer_get_from_gtk_text_buffer n h).2 h).1 =
      (lib.gspell_text_buffer_get_from_gtk_text_buffer n h).1)
    (hentry : ∀ n h, (lib.gspell_entry_buffer_get_from_gtk_entry_buffer
        (lib.gspell_entry_buffer_get_from_gtk_entry_buffer n h).2 h).1 =
      (lib.gspell_entry_buffer_get_from_gtk_entry_buffer n h).1) :
    ((GetFromGtkTextBuffer lib b w).1.native =
        (GetFromGtkTextBuffer lib b (GetFromGtkTextBuffer lib b w).2).1.native ∧
      (GetFromGtkTextBuffer lib b w).1.addr ≠
        (GetFromGtkTextBuffer lib b (GetFromGtkTextBuffer lib b w).2).1.addr) ∧
    ((GetFromGtkEntryBuffer lib b w).1.native =
        (GetFromGtkEntryBuffer lib b (GetFromGtkEntryBuffer lib b w).2).1.native ∧
      (GetFromGtkEntryBuffer lib b w).1.addr ≠
        (GetFromGtkEntryBuffer lib b (GetFromGtkEntryBuffer lib b w).2).1.addr) := by
  refine ⟨⟨?_, ?_⟩, ?_, ?_⟩
  · simpa [GetFromGtkTextBuffer, wrapTextBuffer, glib.Take, World.new, World.call, World.emit,
      World.setNative, TextBuffer.native, glib.Object.Native] using (htext w.native _).symm
  · simp [GetFromGtkTextBuffer, wrapTextBuffer, glib.Take, World.new, World.call, World.emit,
      World.setNative]
  · simpa [GetFromGtkEntryBuffer, wrapEntryBuffer, glib.Take, World.new, World.call, World.emit,
      World.setNative, EntryBuffer.native, glib.Object.Native] using (hentry w.native _).symm
  · simp [GetFromGtkEntryBuffer, wrapEntryBuffer, glib.Take, World.new, World.call, World.emit,
      World.setNative]

/-- Witness of `getFromGtkBuffer_same_native`: the small library, buffer `9`. -/
theorem getFromGtkBuffer_same_native_witness :
    ((GetFromGtkTextBuffer fakeLib gtkBuffer9 world0).1.native =
        (GetFromGtkTextBuffer fakeLib gtkBuffer9
          (GetFromGtkTextBuffer fakeLib gtkBuffer9 world0).2).1.native ∧
      (GetFromGtkTextBuffer fakeLib gtkBuffer9 world0).1.addr ≠
        (GetFromGtkTextBuffer fakeLib gtkBuffer9
          (GetFromGtkTextBuffer fakeLib gtkBuffer9 world0).2).1.addr) ∧
    ((GetFromGtkEntryBuffer fakeLib gtkBuffer9 world0).1.native =
        (GetFromGtkEntryBuffer fakeLib gtkBuffer9
          (GetFromGtkEntryBuffer fakeLib gtkBuffer9 world0).2).1.native ∧
      (GetFromGtkEntryBuffer fakeLib gtkBuffer9 world0).1.addr ≠
        (GetFromGtkEntryBuffer fakeLib gtkBuffer9
          (GetFromGtkEntryBuffer fakeLib gtkBuffer9 world0).2).1.addr) :=
  getFromGtkBuffer_same_native fakeLib gtkBuffer9 world0 (fun _ _ => rfl) (fun _ _ => rfl)

/-- C4: for a checker whose language is unset, `CheckWord` returns true for
every word (the empty string included) and every length, given the behaviour
the source documents for the native call: `gspell_checker_check_word` returns
`TRUE` for a checker without language. -/
theorem checkWord_fail_open {N : Type} (lib : Lib N) (c : Checker) (word : GoString)
    (wordLength : Int) (w : World N)
    (hlang : (Checker.GetLanguage lib c w).1 = 0)
    (hnative : ∀ (n : N) (h : Handle) (a : CStrArg) (e : Handle),
      lib.gspell_checker_get_language n h = 0 →
        (lib.gspell_checker_check_word n h a (C.gssize wordLength) e).1.1 = TRUE) :
    (Checker.CheckWord lib c word wordLength w).1 = true := by
  rw [CheckWord_value]
  have hl : lib.gspell_checker_get_language w.native c.native = 0 := hlang
  rw [hnative w.native c.native _ 0 hl]
  decide

/-- Witness of `checkWord_fail_open`: checker `8` of the small library has no
language; the empty word is accepted. -/
theorem checkWord_fail_open_witness :
    (Checker.GetLanguage fakeLib checker8 world0).1 = 0 ∧
      (Checker.CheckWord fakeLib checker8 [] 0 world0).1 = true :=
  ⟨by decide, checkWord_fail_open fakeLib checker8 [] 0 world0 (by decide) (by
    intro n h a e hl
    have hl2 : Fake.get n.checkerLang h 0 = 0 := hl
    simp [fakeLib, hl2])⟩

/-! ### `Navigator` -/

theorem Change_trace {N : Type} (lib : Lib N) (n : Navigator) (word changeTo : GoString)
    (w : World N) :
    (n.Change lib word changeTo w).trace =
      w.trace ++ [Event.CString (w.cnext + 1) (word ++ [0]),
        Event.CString (w.cnext + 1 + 1) (changeTo ++ [0]),
        Event.native (Call.gspell_navigator_change n.native ⟨w.cnext + 1, some (word ++ [0])⟩
          ⟨w.cnext + 1 + 1, some (changeTo ++ [0])⟩),
        Event.free (w.cnext + 1 + 1), Event.free (w.cnext + 1)] := by
  have hne : (w.cnext + 1 == w.cnext) = false := by simp
  simp [Navigator.Change, C.CString, C.free, World.call, World.emit, World.setNative, World.arg,
    World.block, List.find?, hne]

theorem ChangeAll_trace {N : Type} (lib : Lib N) (n : Navigator) (word changeTo : GoString)
    (w : World N) :
    (n.ChangeAll lib word changeTo w).trace =
      w.trace ++ [Event.CString (w.cnext + 1) (word ++ [0]),
        Event.CString (w.cnext + 1 + 1) (changeTo ++ [0]),
        Event.native (Call.gspell_navigator_change_all n.native
          ⟨w.cnext + 1, some (word ++ [0])⟩ ⟨w.cnext + 1 + 1, some (changeTo ++ [0])⟩),
        Event.free (w.cnext + 1 + 1), Event.free (w.cnext + 1)] := by
  have hne : (w.cnext + 1 == w.cnext) = false := by simp
  simp [Navigator.ChangeAll, C.CString, C.free, World.call, World.emit, World.setNative,
    World.arg, World.block, List.find?, hne]

/-- C5: `Navigator.Change` makes exactly one native call,
`gspell_navigator_change` with the handle of the navigator, the C copy of the
word and the C copy of the replacement, in that order; `Navigator.ChangeAll`
does the same with `gspell_navigator_change_all`; neither calls
`gspell_checker_set_correction`. -/
theorem navigator_change_single_call {N : Type} (lib : Lib N) (n : Navigator)
    (word changeTo : GoString) (w : World N) :
    callsSince w (n.Change lib word changeTo w) =
        [Call.gspell_navigator_change n.native ⟨w.cnext + 1, some (word ++ [0])⟩
          ⟨w.cnext + 1 + 1, some (changeTo ++ [0])⟩] ∧
      callsSince w (n.ChangeAll lib word changeTo w) =
        [Call.gspell_navigator_change_all n.native ⟨w.cnext + 1, some (word ++ [0])⟩
          ⟨w.cnext + 1 + 1, some (changeTo ++ [0])⟩] ∧
      (callsSince w (n.Change lib word changeTo w)).all (fun c => !c.isSetCorrection) = true ∧
      (callsSince w (n.ChangeAll lib word changeTo w)).all (fun c => !c.isSetCorrection) =
        true := by
  have h1 := callsSince_of_trace w _ _ (Change_trace lib n word changeTo w)
  have h2 := callsSince_of_trace w _ _ (ChangeAll_trace lib n word changeTo w)
  rw [h1, h2]
  exact ⟨rfl, rfl, rfl, rfl⟩

/-! ### Strings handed to the native side -/

theorem LanguageLookup_trace {N : Type} (lib : Lib N) (s : GoString) (w : World N) :
    (LanguageLookup lib s w).2.trace =
      w.trace ++ [Event.CString (w.cnext + 1) (s ++ [0]),
        Event.native (Call.gspell_language_lookup ⟨w.cnext + 1, some (s ++ [0])⟩),
        Event.free (w.cnext + 1)] := by
  simp [LanguageLookup, C.CString, C.free, World.call, World.emit, World.setNative, World.arg,
    World.block]

theorem SetLanguageCode_trace {N : Type} (lib : Lib N) (l : LanguageChooser) (s : GoString)
    (w : World N) :
    (l.SetLanguageCode lib s w).trace =
      w.trace ++ [Event.CString (w.cnext + 1) (s ++ [0]),
        Event.native (Call.gspell_language_chooser_set_language_code l.native
          ⟨w.cnext + 1, some (s ++ [0])⟩),
        Event.free (w.cnext + 1)] := by
  simp [LanguageChooser.SetLanguageCode, C.CString, C.free, World.call, World.emit,
    World.setNative, World.arg, World.block]

/-- C6, as stated, fails: for the code `"aa\x00x"` the native lookup reads the
C string `"aa"`, which is not the Go string, and `LanguageLookup` returns the
language `101` of code `"aa"`, the same result as for the Go string `"aa"`,
without any failure; likewise `Navigator.Change` on `"h\x00i"` hands over the
C string `"h"`. -/
theorem interior_nul_shortened :
    stringsReceived world0 (LanguageLookup fakeLib [97, 97, 0, 120] world0).2 = [[97, 97]] ∧
      (LanguageLookup fakeLib [97, 97, 0, 120] world0).1 = 101 ∧
      (LanguageLookup fakeLib [97, 97] world0).1 = 101 ∧
      stringsReceived world0 (navigator10.Change fakeLib [104, 0, 105] [111] world0) =
        [[104], [111]] := by
  decide

/-- C6, amended: every string-taking operation hands over a block that holds
exactly the bytes of the Go string followed by a NUL byte.  Where the native
function takes the string alone (`LanguageLookup`,
`LanguageChooser.SetLanguageCode`, `Navigator.Change`, `Navigator.ChangeAll`)
the C string it reads is the bytes of the Go string before its first NUL byte,
which is the whole Go string exactly when the string holds no NUL byte.  Where
the native function also takes a byte length (`Checker.CheckWord`) the block is
handed over with the length of the caller, and its first `len(s)` bytes are the
Go string. -/
theorem strings_received_up_to_nul {N : Type} (lib : Lib N) (c : Checker)
    (l : LanguageChooser) (n : Navigator) (s t : GoString) (len : Int) (w : World N) :
    stringsReceived w (LanguageLookup lib s w).2 = [cstrOf s] ∧
      stringsReceived w (l.SetLanguageCode lib s w) = [cstrOf s] ∧
      stringsReceived w (n.Change lib s t w) = [cstrOf s, cstrOf t] ∧
      stringsReceived w (n.ChangeAll lib s t w) = [cstrOf s, cstrOf t] ∧
      (cstrOf s = s ↔ (0 : Byte) ∉ s) ∧
      callsSince w (LanguageLookup lib s w).2 =
        [Call.gspell_language_lookup ⟨w.cnext + 1, some (s ++ [0])⟩] ∧
      callsSince w (l.SetLanguageCode lib s w) =
        [Call.gspell_language_chooser_set_language_code l.native
          ⟨w.cnext + 1, some (s ++ [0])⟩] ∧
      callsSince w (n.Change lib s t w) =
        [Call.gspell_navigator_change n.native ⟨w.cnext + 1, some (s ++ [0])⟩
          ⟨w.cnext + 1 + 1, some (t ++ [0])⟩] ∧
      callsSince w (n.ChangeAll lib s t w) =
        [Call.gspell_navigator_change_all n.native ⟨w.cnext + 1, some (s ++ [0])⟩
          ⟨w.cnext + 1 + 1, some (t ++ [0])⟩] ∧
      sizedReceived w (c.CheckWord lib s len w).2 =
        [(⟨w.cnext + 1, some (s ++ [0])⟩, C.gssize len)] ∧
      (⟨w.cnext + 1, some (s ++ [0])⟩ : CStrArg).firstBytes s.length = s := by
  have h1 := callsSince_of_trace w _ _ (LanguageLookup_trace lib s w)
  have h2 := callsSince_of_trace w _ _ (CheckWord_trace lib c s len w)
  have h3 := callsSince_of_trace w _ _ (SetLanguageCode_trace lib l s w)
  have h4 := callsSince_of_trace w _ _ (Change_trace lib n s t w)
  have h5 := callsSince_of_trace w _ _ (ChangeAll_trace lib n s t w)
  refine ⟨?_, ?_, ?_, ?_, cstrOf_eq_self_iff s, ?_, ?_, ?_, ?_, ?_, ?_⟩
  · simp [stringsReceived, h1, nativeCalls, Call.terminated, CStrArg.content, cstrOf_append_nul]
  · simp [stringsReceived, h3, nativeCalls, Call.terminated, CStrArg.content, cstrOf_append_nul]
  · simp [stringsReceived, h4, nativeCalls, Call.terminated, CStrArg.content, cstrOf_append_nul]
  · simp [stringsReceived, h5, nativeCalls, Call.terminated, CStrArg.content, cstrOf_append_nul]
  · rw [h1]
    rfl
  · rw [h3]
    rfl
  · rw [h4]
    rfl
  · rw [h5]
    rfl
  · simp [sizedReceived, h2, nativeCalls, Call.sized]
  · simp [CStrArg.firstBytes]

/-! ### `CheckerNew` -/

theorem CheckerNew_trace {N : Type} (lib : Lib N) (language : Language) (w : World N) :
    (CheckerNew lib language w).2.trace =
      w.trace ++ [Event.native (Call.gspell_checker_new language),
        Event.Take (lib.gspell_checker_new w.native language).1] := by
  simp [CheckerNew, wrapChecker, glib.Take, World.new, World.call, World.emit, World.setNative,
    Language.Native, Language.native]

/-- C7: `Language.Native` on the nil `*Language` is the null handle `0`;
`CheckerNew(nil)` makes the one native call `gspell_checker_new(NULL)`; and the
language of the checker it returns is the one `LanguageGetDefault()` returns,
given the behaviour the source documents for the native constructor (a NULL
language picks the default language). -/
theorem checkerNew_nil_language {N : Type} (lib : Lib N) (w : World N)
    (hnative : ∀ n : N,
      lib.gspell_checker_get_language (lib.gspell_checker_new n 0).2
          (lib.gspell_checker_new n 0).1 =
        lib.gspell_language_get_default (lib.gspell_checker_new n 0).2) :
    Language.Native (0 : Language) = 0 ∧
      callsSince w (CheckerNew lib (0 : Language) w).2 = [Call.gspell_checker_new 0] ∧
      ((CheckerNew lib (0 : Language) w).1.GetLanguage lib (CheckerNew lib (0 : Language) w).2).1 =
        (LanguageGetDefault lib (CheckerNew lib (0 : Language) w).2).1 := by
  refine ⟨rfl, ?_, ?_⟩
  · rw [callsSince_of_trace w _ _ (CheckerNew_trace lib 0 w)]
    rfl
  · simpa [CheckerNew, wrapChecker, glib.Take, World.new, World.call, World.emit,
      World.setNative, Language.Native, Language.native, Checker.GetLanguage, Checker.native,
      glib.Object.Native, LanguageGetDefault] using hnative w.native

/-- Witness of `checkerNew_nil_language`: in the small library the checker
created for a nil language has the default language `101`. -/
theorem checkerNew_nil_language_witness :
    ((CheckerNew fakeLib (0 : Language) world0).1.GetLanguage fakeLib
        (CheckerNew fakeLib (0 : Language) world0).2).1 = 101 ∧
      Language.Native (0 : Language) = 0 ∧
      callsSince world0 (CheckerNew fakeLib (0 : Language) world0).2 =
        [Call.gspell_checker_new 0] ∧
      ((CheckerNew fakeLib (0 : Language) world0).1.GetLanguage fakeLib
        (CheckerNew fakeLib (0 : Language) world0).2).1 =
        (LanguageGetDefault fakeLib (CheckerNew fakeLib (0 : Language) world0).2).1 :=
  ⟨by decide, checkerNew_nil_language fakeLib world0 (by
    intro n
    simp [fakeLib, Fake.checkerNew, Fake.get])⟩

/-! ### Language registry -/

theorem cstrOf_GoString (p : Option (List Byte)) : cstrOf (C.GoString p) = C.GoString p := by
  rw [cstrOf_eq_self_iff]
  cases p with
  | none => simp [C.GoString]
  | some bytes => exact zero_not_mem_cstrOf bytes

/-- C8: for every language `l` of `LanguageGetAvailable()` with code
`c = l.GetCode()`, `LanguageLookup(c)` is non-nil and its `GetCode()` is `c`,
and the C string made from `c` reads back as `c`; given the behaviour of the
native registry that the lookup of the code of an installed language finds a
language with that code. -/
theorem lookup_getCode_roundtrip {N : Type} (lib : Lib N) (w : World N) (l : Language)
    (hl : l ∈ (LanguageGetAvailable lib w).1)
    (hnative : ∀ (n : N) (x : Handle), x ∈ lib.gspell_language_get_available n →
      ∀ a : CStrArg, a.content = C.GoString (lib.gspell_language_get_code n x) →
        lib.gspell_language_lookup n a ≠ 0 ∧
          C.GoString (lib.gspell_language_get_code n (lib.gspell_language_lookup n a)) =
            a.content) :
    (LanguageLookup lib (Language.GetCode lib l (LanguageGetAvailable lib w).2).1
        (Language.GetCode lib l (LanguageGetAvailable lib w).2).2).1 ≠ 0 ∧
      (Language.GetCode lib
        (LanguageLookup lib (Language.GetCode lib l (LanguageGetAvailable lib w).2).1
          (Language.GetCode lib l (LanguageGetAvailable lib w).2).2).1
        (LanguageLookup lib (Language.GetCode lib l (LanguageGetAvailable lib w).2).1
          (Language.GetCode lib l (LanguageGetAvailable lib w).2).2).2).1 =
        (Language.GetCode lib l (LanguageGetAvailable lib w).2).1 ∧
      C.GoString ((C.CString (Language.GetCode lib l (LanguageGetAvailable lib w).2).1 w).2.block
        (C.CString (Language.GetCode lib l (LanguageGetAvailable lib w).2).1 w).1) =
        (Language.GetCode lib l (LanguageGetAvailable lib w).2).1 := by
  have hl2 : l ∈ lib.gspell_language_get_available w.native := hl
  have hc : (⟨w.cnext + 1,
      some (C.GoString (lib.gspell_language_get_code w.native l) ++ [0])⟩ : CStrArg).content =
      C.GoString (lib.gspell_language_get_code w.native l) := by
    simp [CStrArg.content, cstrOf_append_nul, cstrOf_GoString]
  have h := hnative w.native l hl2 _ hc
  rw [hc] at h
  refine ⟨?_, ?_, ?_⟩
  · simpa [LanguageLookup, Language.GetCode, LanguageGetAvailable, C.CString, C.free,
      World.call, World.emit, World.setNative, World.arg, World.block, Language.native]
      using h.1
  · simpa [LanguageLookup, Language.GetCode, LanguageGetAvailable, C.CString, C.free,
      World.call, World.emit, World.setNative, World.arg, World.block, Language.native]
      using h.2
  · have h3 : C.GoString (some (C.GoString (lib.gspell_language_get_code w.native l) ++ [0])) =
        C.GoString (lib.gspell_language_get_code w.native l) := by
      show cstrOf _ = _
      rw [cstrOf_append_nul, cstrOf_GoString]
    simpa [Language.GetCode, LanguageGetAvailable, C.CString, World.call, World.emit,
      World.setNative, World.block, Language.native] using h3

theorem fakeLib_lookup_contract (n : Fake) (x : Handle)
    (hx : x ∈ fakeLib.gspell_language_get_available n) (a : CStrArg)
    (ha : a.content = C.GoString (fakeLib.gspell_language_get_code n x)) :
    fakeLib.gspell_language_lookup n a ≠ 0 ∧
      C.GoString (fakeLib.gspell_language_get_code n (fakeLib.gspell_language_lookup n a)) =
        a.content := by
  have hx2 : x = 101 ∨ x = 102 := by simpa [fakeLib] using hx
  rcases hx2 with rfl | rfl
  · have ha2 : a.content = [97, 97] := by rw [ha]; rfl
    simp only [fakeLib, Fake.lookup, ha2]
    decide
  · have ha2 : a.content = [122, 122] := by rw [ha]; rfl
    simp only [fakeLib, Fake.lookup, ha2]
    decide

/-- Witness of `lookup_getCode_roundtrip`: language `101` (code `"aa"`) of the
small library. -/
theorem lookup_getCode_roundtrip_witness :
    (101 : Language) ∈ (LanguageGetAvailable fakeLib world0).1 ∧
      (Language.GetCode fakeLib 101 (LanguageGetAvailable fakeLib world0).2).1 = [97, 97] ∧
      ((LanguageLookup fakeLib (Language.GetCode fakeLib 101
          (LanguageGetAvailable fakeLib world0).2).1
        (Language.GetCode fakeLib 101 (LanguageGetAvailable fakeLib world0).2).2).1 ≠ 0 ∧
      (Language.GetCode fakeLib
        (LanguageLookup fakeLib (Language.GetCode fakeLib 101
            (LanguageGetAvailable fakeLib world0).2).1
          (Language.GetCode fakeLib 101 (LanguageGetAvailable fakeLib world0).2).2).1
        (LanguageLookup fakeLib (Language.GetCode fakeLib 101
            (LanguageGetAvailable fakeLib world0).2).1
          (Language.GetCode fakeLib 101 (LanguageGetAvailable fakeLib world0).2).2).2).1 =
        (Language.GetCode fakeLib 101 (LanguageGetAvailable fakeLib world0).2).1 ∧
      C.GoString ((C.CString (Language.GetCode fakeLib 101
          (LanguageGetAvailable fakeLib world0).2).1 world0).2.block
        (C.CString (Language.GetCode fakeLib 101
          (LanguageGetAvailable fakeLib world0).2).1 world0).1) =
        (Language.GetCode fakeLib 101 (LanguageGetAvailable fakeLib world0).2).1) :=
  ⟨by decide, by decide,
    lookup_getCode_roundtrip fakeLib world0 101 (by decide) fakeLib_lookup_contract⟩

/-- C9: `a.Compare(b)` makes the one native call `gspell_language_compare(a, b)`
(the receiver first) and returns its result; given that the native comparison
is a comparison `collate` of the display names, the result is `collate` applied
to `a.GetName()` and `b.GetName()` in that order, and it is the same for any
two languages with the same names, whatever their codes. -/
theorem compare_by_name {N : Type} (lib : Lib N) (collate : GoString → GoString → Int)
    (a b : Language) (w : World N)
    (hnative : ∀ (n : N) (x y : Handle), lib.gspell_language_compare n x y =
      collate (C.GoString (lib.gspell_language_get_name n x))
        (C.GoString (lib.gspell_language_get_name n y))) :
    callsSince w (Language.Compare lib a b w).2 = [Call.gspell_language_compare a b] ∧
      (Language.Compare lib a b w).1 =
        collate (Language.GetName lib a w).1 (Language.GetName lib b w).1 ∧
      ∀ a2 b2 : Language, (Language.GetName lib a2 w).1 = (Language.GetName lib a w).1 →
        (Language.GetName lib b2 w).1 = (Language.GetName lib b w).1 →
        (Language.Compare lib a2 b2 w).1 = (Language.Compare lib a b w).1 := by
  have hv : ∀ x y : Language, (Language.Compare lib x y w).1 =
      collate (Language.GetName lib x w).1 (Language.GetName lib y w).1 := by
    intro x y
    simpa [Language.Compare, Language.GetName, Language.Native, Language.native]
      using hnative w.native x y
  refine ⟨?_, hv a b, ?_⟩
  · have ht : (Language.Compare lib a b w).2.trace =
        w.trace ++ [Event.native (Call.gspell_language_compare a b)] := by
      simp [Language.Compare, World.call, World.emit, World.setNative, Language.Native,
        Language.native]
    rw [callsSince_of_trace w _ _ ht]
    rfl
  · intro a2 b2 h1 h2
    rw [hv a2 b2, hv a b, h1, h2]

/-- Witness of `compare_by_name`: in the small library the language coded
`"zz"` and named `"Aardvark"` sorts before the one coded `"aa"` and named
`"Zebra"`. -/
theorem compare_by_name_witness :
    (Language.Compare fakeLib 102 101 world0).1 = -1 ∧
      (Language.Compare fakeLib 102 101 world0).1 =
        bytesCompare (Language.GetName fakeLib 102 world0).1
          (Language.GetName fakeLib 101 world0).1 :=
  ⟨by decide, (compare_by_name fakeLib bytesCompare 102 101 world0 (fun _ _ _ => rfl)).2.1⟩

/-! ### `BasicSetup` -/

theorem TextView_BasicSetupSteps_trace {N : Type} (lib : Lib N) (t : TextView) (w : World N) :
    (t.BasicSetupSteps lib w).trace =
      w.trace ++ [Event.native (Call.gspell_checker_new 0),
        Event.Take (lib.gspell_checker_new w.native 0).1,
        Event.native (Call.gspell_text_view_get_view t.native),
        Event.Take (lib.gspell_text_view_get_view (lib.gspell_checker_new w.native 0).2 t.native),
        Event.native (Call.gtk_text_view_get_buffer
          (lib.gspell_text_view_get_view (lib.gspell_checker_new w.native 0).2 t.native)),
        Event.Take (lib.gtk_text_view_get_buffer (lib.gspell_checker_new w.native 0).2
          (lib.gspell_text_view_get_view (lib.gspell_checker_new w.native 0).2 t.native)),
        Event.native (Call.gspell_text_buffer_get_from_gtk_text_buffer
          (lib.gtk_text_view_get_buffer (lib.gspell_checker_new w.native 0).2
            (lib.gspell_text_view_get_view (lib.gspell_checker_new w.native 0).2 t.native))),
        Event.Take (lib.gspell_text_buffer_get_from_gtk_text_buffer
          (lib.gspell_checker_new w.native 0).2
          (lib.gtk_text_view_get_buffer (lib.gspell_checker_new w.native 0).2
            (lib.gspell_text_view_get_view (lib.gspell_checker_new w.native 0).2 t.native))).1,
        Event.native (Call.gspell_text_buffer_set_spell_checker
          (lib.gspell_text_buffer_get_from_gtk_text_buffer
            (lib.gspell_checker_new w.native 0).2
            (lib.gtk_text_view_get_buffer (lib.gspell_checker_new w.native 0).2
              (lib.gspell_text_view_get_view (lib.gspell_checker_new w.native 0).2 t.native))).1
          (lib.gspell_checker_new w.native 0).1),
        Event.native (Call.gspell_text_view_set_inline_spell_checking t.native TRUE),
        Event.native (Call.gspell_text_view_set_enable_language_menu t.native TRUE)] := by
  simp [TextView.BasicSetupSteps, CheckerNew, wrapChecker, TextView.GetView,
    gtk.TextView.GetBuffer, GetFromGtkTextBuffer, wrapTextBuffer, TextBuffer.SetSpellChecker,
    TextView.SetInlineSpellChecking, TextView.SetEnableLanguageMenu, glib.Take, World.new,
    World.call, World.emit, World.setNative, Language.Native, Language.native, TextView.native,
    TextBuffer.native, glib.Object.Native, cbool]

theorem Entry_BasicSetupSteps_trace {N : Type} (lib : Lib N) (e : Entry) (w : World N) :
    (e.BasicSetupSteps lib w).trace =
      w.trace ++ [Event.native (Call.gspell_checker_new 0),
        Event.Take (lib.gspell_checker_new w.native 0).1,
        Event.native (Call.gspell_entry_get_entry e.native),
        Event.Take (lib.gspell_entry_get_entry (lib.gspell_checker_new w.native 0).2 e.native),
        Event.native (Call.gtk_entry_get_buffer
          (lib.gspell_entry_get_entry (lib.gspell_checker_new w.native 0).2 e.native)),
        Event.Take (lib.gtk_entry_get_buffer (lib.gspell_checker_new w.native 0).2
          (lib.gspell_entry_get_entry (lib.gspell_checker_new w.native 0).2 e.native)),
        Event.native (Call.gspell_entry_buffer_get_from_gtk_entry_buffer
          (lib.gtk_entry_get_buffer (lib.gspell_checker_new w.native 0).2
            (lib.gspell_entry_get_entry (lib.gspell_checker_new w.native 0).2 e.native))),
        Event.Take (lib.gspell_entry_buffer_get_from_gtk_entry_buffer
          (lib.gspell_checker_new w.native 0).2
          (lib.gtk_entry_get_buffer (lib.gspell_checker_new w.native 0).2
            (lib.gspell_entry_get_entry (lib.gspell_checker_new w.native 0).2 e.native))).1,
        Event.native (Call.gspell_entry_buffer_set_spell_checker
          (lib.gspell_entry_buffer_get_from_gtk_entry_buffer
            (lib.gspell_checker_new w.native 0).2
            (lib.gtk_entry_get_buffer (lib.gspell_checker_new w.native 0).2
              (lib.gspell_entry_get_entry (lib.gspell_checker_new w.native 0).2 e.native))).1
          (lib.gspell_checker_new w.native 0).1),
        Event.native (Call.gspell_entry_set_inline_spell_checking e.native TRUE)] := by
  simp [Entry.BasicSetupSteps, CheckerNew, wrapChecker, Entry.GetEntry,
    gtk.Entry.GetBuffer, GetFromGtkEntryBuffer, wrapEntryBuffer, EntryBuffer.SetSpellChecker,
    Entry.SetInlineSpellChecking, glib.Take, World.new,
    World.call, World.emit, World.setNative, Language.Native, Language.native, Entry.native,
    EntryBuffer.native, glib.Object.Native, cbool]

theorem TextView_BasicSetupSteps_native {N : Type} (lib : Lib N) (t : TextView) (w : World N) :
    (t.BasicSetupSteps lib w).native = nativeTextViewSteps lib w.native t.native := by
  simp [TextView.BasicSetupSteps, nativeTextViewSteps, CheckerNew, wrapChecker, TextView.GetView,
    gtk.TextView.GetBuffer, GetFromGtkTextBuffer, wrapTextBuffer, TextBuffer.SetSpellChecker,
    TextView.SetInlineSpellChecking, TextView.SetEnableLanguageMenu, glib.Take, World.new,
    World.call, World.emit, World.setNative, Language.Native, Language.native, TextView.native,
    TextBuffer.native, glib.Object.Native, cbool]

theorem Entry_BasicSetupSteps_native {N : Type} (lib : Lib N) (e : Entry) (w : World N) :
    (e.BasicSetupSteps lib w).native = nativeEntrySteps lib w.native e.native := by
  simp [Entry.BasicSetupSteps, nativeEntrySteps, CheckerNew, wrapChecker, Entry.GetEntry,
    gtk.Entry.GetBuffer, GetFromGtkEntryBuffer, wrapEntryBuffer, EntryBuffer.SetSpellChecker,
    Entry.SetInlineSpellChecking, glib.Take, World.new,
    World.call, World.emit, World.setNative, Language.Native, Language.native, Entry.native,
    EntryBuffer.native, glib.Object.Native, cbool]

/-- C10: `TextView.BasicSetup` and `Entry.BasicSetup` each make one native call
(`gspell_text_view_basic_setup`, `gspell_entry_basic_setup`), without reading
the attached checker first; given that these native functions do what the
source comment lists, the native state they leave is the one left by the step
sequence written with the binding: create a checker with the nil (default)
language, attach it to the buffer association of the widget, enable inline
checking and, for a text view, the language menu; in the step sequence the
checker is attached before inline checking is enabled. -/
theorem basicSetup_refines_steps {N : Type} (lib : Lib N) (t : TextView) (e : Entry)
    (w : World N)
    (hview : ∀ (n : N) (v : Handle),
      lib.gspell_text_view_basic_setup n v = nativeTextViewSteps lib n v)
    (hentry : ∀ (n : N) (v : Handle),
      lib.gspell_entry_basic_setup n v = nativeEntrySteps lib n v) :
    (t.BasicSetup lib w).native = (t.BasicSetupSteps lib w).native ∧
      (e.BasicSetup lib w).native = (e.BasicSetupSteps lib w).native ∧
      callsSince w (t.BasicSetup lib w) = [Call.gspell_text_view_basic_setup t.native] ∧
      callsSince w (e.BasicSetup lib w) = [Call.gspell_entry_basic_setup e.native] ∧
      callsSince w (t.BasicSetupSteps lib w) =
        [Call.gspell_checker_new 0,
          Call.gspell_text_view_get_view t.native,
          Call.gtk_text_view_get_buffer
            (lib.gspell_text_view_get_view (lib.gspell_checker_new w.native 0).2 t.native),
          Call.gspell_text_buffer_get_from_gtk_text_buffer
            (lib.gtk_text_view_get_buffer (lib.gspell_checker_new w.native 0).2
              (lib.gspell_text_view_get_view (lib.gspell_checker_new w.native 0).2 t.native)),
          Call.gspell_text_buffer_set_spell_checker
            (lib.gspell_text_buffer_get_from_gtk_text_buffer
              (lib.gspell_checker_new w.native 0).2
              (lib.gtk_text_view_get_buffer (lib.gspell_checker_new w.native 0).2
                (lib.gspell_text_view_get_view (lib.gspell_checker_new w.native 0).2
                  t.native))).1
            (lib.gspell_checker_new w.native 0).1,
          Call.gspell_text_view_set_inline_spell_checking t.native TRUE,
          Call.gspell_text_view_set_enable_language_menu t.native TRUE] ∧
      callsSince w (e.BasicSetupSteps lib w) =
        [Call.gspell_checker_new 0,
          Call.gspell_entry_get_entry e.native,
          Call.gtk_entry_get_buffer
            (lib.gspell_entry_get_entry (lib.gspell_checker_new w.native 0).2 e.native),
          Call.gspell_entry_buffer_get_from_gtk_entry_buffer
            (lib.gtk_entry_get_buffer (lib.gspell_checker_new w.native 0).2
              (lib.gspell_entry_get_entry (lib.gspell_checker_new w.native 0).2 e.native)),
          Call.gspell_entry_buffer_set_spell_checker
            (lib.gspell_entry_buffer_get_from_gtk_entry_buffer
              (lib.gspell_checker_new w.native 0).2
              (lib.gtk_entry_get_buffer (lib.gspell_checker_new w.native 0).2
                (lib.gspell_entry_get_entry (lib.gspell_checker_new w.native 0).2
                  e.native))).1
            (lib.gspell_checker_new w.native 0).1,
          Call.gspell_entry_set_inline_spell_checking e.native TRUE] := by
  refine ⟨?_, ?_, ?_, ?_, ?_, ?_⟩
  · rw [TextView_BasicSetupSteps_native]
    exact hview w.native t.native
  · rw [Entry_BasicSetupSteps_native]
    exact hentry w.native e.native
  · simp [callsSince, TextView.BasicSetup, World.call, World.emit, World.setNative, nativeCalls]
  · simp [callsSince, Entry.BasicSetup, World.call, World.emit, World.setNative, nativeCalls]
  · rw [callsSince_of_trace w _ _ (TextView_BasicSetupSteps_trace lib t w)]
    rfl
  · rw [callsSince_of_trace w _ _ (Entry_BasicSetupSteps_trace lib e w)]
    rfl

/-- Witness of `basicSetup_refines_steps`: the small library, the view `511`
and the entry `512`, in a world where the checker `7` is already attached to
the buffer of the view; after `BasicSetup` the attached checker is the newly
created one, `51`. -/
theorem basicSetup_refines_steps_witness :
    fakeLib.gspell_text_buffer_get_spell_checker world1.native 6011 = 7 ∧
      fakeLib.gspell_text_buffer_get_spell_checker
        (textView511.BasicSetup fakeLib world1).native 6011 = 51 ∧
      (textView511.BasicSetup fakeLib world1).native =
        (textView511.BasicSetupSteps fakeLib world1).native ∧
      (entry512.BasicSetup fakeLib world1).native =
        (entry512.BasicSetupSteps fakeLib world1).native :=
  ⟨by decide, by decide,
    (basicSetup_refines_steps fakeLib textView511 entry512 world1 (fun _ _ => rfl)
      (fun _ _ => rfl)).1,
    (basicSetup_refines_steps fakeLib textView511 entry512 world1 (fun _ _ => rfl)
      (fun _ _ => rfl)).2.1⟩

/-! ### Transient native strings -/

theorem eventsSince_of_trace {N : Type} (w w2 : World N) (l : List Event)
    (h : w2.trace = w.trace ++ l) : eventsSince w w2 = l := by
  simp [eventsSince, h]

theorem filter_of_heapOk {N : Type} (w : World N) (h : w.heapOk = true) (p : Nat)
    (hp : w.cnext < p) : w.cmem.filter (fun e => e.1 != p) = w.cmem := by
  rw [List.filter_eq_self]
  intro e he
  have hle : e.1 ≤ w.cnext := by
    have := List.all_eq_true.mp h e he
    simpa using this
  have hne : e.1 ≠ p := by omega
  simpa using hne

theorem AddWordToPersonal_trace {N : Type} (lib : Lib N) (c : Checker) (word : GoString)
    (wordLength : Int) (w : World N) :
    (c.AddWordToPersonal lib word wordLength w).trace =
      w.trace ++ [Event.CString (w.cnext + 1) (word ++ [0]),
        Event.native (Call.gspell_checker_add_word_to_personal c.native
          ⟨w.cnext + 1, some (word ++ [0])⟩ (C.gssize wordLength)),
        Event.free (w.cnext + 1)] := by
  simp [Checker.AddWordToPersonal, C.CString, C.free, World.call, World.emit, World.setNative,
    World.arg, World.block]

theorem AddWordToSession_trace {N : Type} (lib : Lib N) (c : Checker) (word : GoString)
    (wordLength : Int) (w : World N) :
    (c.AddWordToSession lib word wordLength w).trace =
      w.trace ++ [Event.CString (w.cnext + 1) (word ++ [0]),
        Event.native (Call.gspell_checker_add_word_to_session c.native
          ⟨w.cnext + 1, some (word ++ [0])⟩ (C.gssize wordLength)),
        Event.free (w.cnext + 1)] := by
  simp [Checker.AddWordToSession, C.CString, C.free, World.call, World.emit, World.setNative,
    World.arg, World.block]

theorem GetSuggestions_trace {N : Type} (lib : Lib N) (c : Checker) (word : GoString)
    (wordLength : Int) (w : World N) :
    (c.GetSuggestions lib word wordLength w).2.trace =
      w.trace ++ [Event.CString (w.cnext + 1) (word ++ [0]),
        Event.native (Call.gspell_checker_get_suggestions c.native
          ⟨w.cnext + 1, some (word ++ [0])⟩ (C.gssize wordLength)),
        Event.free (w.cnext + 1)] := by
  simp [Checker.GetSuggestions, C.CString, C.free, World.call, World.emit, World.setNative,
    World.arg, World.block]

theorem SetCorrection_trace {N : Type} (lib : Lib N) (c : Checker) (word : GoString)
    (wordLength : Int) (replacement : GoString) (replacementLength : Int) (w : World N) :
    (c.SetCorrection lib word wordLength replacement replacementLength w).trace =
      w.trace ++ [Event.CString (w.cnext + 1) (word ++ [0]),
        Event.CString (w.cnext + 1 + 1) (replacement ++ [0]),
        Event.native (Call.gspell_checker_set_correction c.native
          ⟨w.cnext + 1, some (word ++ [0])⟩ (C.gssize wordLength)
          ⟨w.cnext + 1 + 1, some (replacement ++ [0])⟩ (C.gssize replacementLength)),
        Event.free (w.cnext + 1 + 1), Event.free (w.cnext + 1)] := by
  have hne : (w.cnext + 1 == w.cnext) = false := by simp
  simp [Checker.SetCorrection, C.CString, C.free, World.call, World.emit, World.setNative,
    World.arg, World.block, List.find?, hne]

theorem scopedStrings_one (p : Nat) (bytes : List Byte) (c : Call)
    (hc : c.strings = [⟨p, some bytes⟩]) :
    scopedStrings [Event.CString p bytes, Event.native c, Event.free p] = true := by
  simp [scopedStrings, scopedFrom, hc]

theorem scopedStrings_two (p : Nat) (b1 b2 : List Byte) (c : Call)
    (hc : c.strings = [⟨p, some b1⟩, ⟨p + 1, some b2⟩]) :
    scopedStrings [Event.CString p b1, Event.CString (p + 1) b2, Event.native c,
      Event.free (p + 1), Event.free p] = true := by
  simp [scopedStrings, scopedFrom, hc]

theorem cmem_one {N : Type} (w : World N) (h : w.heapOk = true) (b : List Byte) :
    ((w.cnext + 1, b) :: w.cmem).filter (fun e => e.1 != w.cnext + 1) = w.cmem := by
  have h1 := filter_of_heapOk w h (w.cnext + 1) (by omega)
  simp [List.filter_cons, h1]

theorem cmem_two {N : Type} (w : World N) (h : w.heapOk = true) (b1 b2 : List Byte) :
    ((((w.cnext + 1 + 1, b2) :: (w.cnext + 1, b1) :: w.cmem).filter
      (fun e => e.1 != w.cnext + 1 + 1)).filter (fun e => e.1 != w.cnext + 1)) = w.cmem := by
  have h1 := filter_of_heapOk w h (w.cnext + 1) (by omega)
  have h2 := filter_of_heapOk w h (w.cnext + 1 + 1) (by omega)
  simp [List.filter_cons, h1, h2]

/-- C11: every operation that takes Go strings (`Checker.SetCorrection`,
`Navigator.Change`, `Navigator.ChangeAll`, `LanguageLookup`,
`LanguageChooser.SetLanguageCode`, `Checker.AddWordToPersonal`,
`Checker.AddWordToSession`, `Checker.CheckWord`, `Checker.GetSuggestions`)
allocates each transient C string before its native call, hands it over live,
and frees it exactly once after the call; on return the C heap is the one the
operation started with. -/
theorem transient_strings_scoped {N : Type} (lib : Lib N) (c : Checker) (l : LanguageChooser)
    (n : Navigator) (s t : GoString) (len len2 : Int) (w : World N)
    (h : w.heapOk = true) :
    (scopedStrings (eventsSince w (c.SetCorrection lib s len t len2 w)) = true ∧
        (c.SetCorrection lib s len t len2 w).cmem = w.cmem) ∧
      (scopedStrings (eventsSince w (n.Change lib s t w)) = true ∧
        (n.Change lib s t w).cmem = w.cmem) ∧
      (scopedStrings (eventsSince w (n.ChangeAll lib s t w)) = true ∧
        (n.ChangeAll lib s t w).cmem = w.cmem) ∧
      (scopedStrings (eventsSince w (LanguageLookup lib s w).2) = true ∧
        (LanguageLookup lib s w).2.cmem = w.cmem) ∧
      (scopedStrings (eventsSince w (l.SetLanguageCode lib s w)) = true ∧
        (l.SetLanguageCode lib s w).cmem = w.cmem) ∧
      (scopedStrings (eventsSince w (c.AddWordToPersonal lib s len w)) = true ∧
        (c.AddWordToPersonal lib s len w).cmem = w.cmem) ∧
      (scopedStrings (eventsSince w (c.AddWordToSession lib s len w)) = true ∧
        (c.AddWordToSession lib s len w).cmem = w.cmem) ∧
      (scopedStrings (eventsSince w (c.CheckWord lib s len w).2) = true ∧
        (c.CheckWord lib s len w).2.cmem = w.cmem) ∧
      (scopedStrings (eventsSince w (c.GetSuggestions lib s len w).2) = true ∧
        (c.GetSuggestions lib s len w).2.cmem = w.cmem) := by
  refine ⟨⟨?_, ?_⟩, ⟨?_, ?_⟩, ⟨?_, ?_⟩, ⟨?_, ?_⟩, ⟨?_, ?_⟩, ⟨?_, ?_⟩, ⟨?_, ?_⟩, ⟨?_, ?_⟩, ?_, ?_⟩
  · rw [eventsSince_of_trace w _ _ (SetCorrection_trace lib c s len t len2 w)]
    exact scopedStrings_two _ _ _ _ rfl
  · exact cmem_two w h _ _
  · rw [eventsSince_of_trace w _ _ (Change_trace lib n s t w)]
    exact scopedStrings_two _ _ _ _ rfl
  · exact cmem_two w h _ _
  · rw [eventsSince_of_trace w _ _ (ChangeAll_trace lib n s t w)]
    exact scopedStrings_two _ _ _ _ rfl
  · exact cmem_two w h _ _
  · rw [eventsSince_of_trace w _ _ (LanguageLookup_trace lib s w)]
    exact scopedStrings_one _ _ _ rfl
  · exact cmem_one w h _
  · rw [eventsSince_of_trace w _ _ (SetLanguageCode_trace lib l s w)]
    exact scopedStrings_one _ _ _ rfl
  · exact cmem_one w h _
  · rw [eventsSince_of_trace w _ _ (AddWordToPersonal_trace lib c s len w)]
    exact scopedStrings_one _ _ _ rfl
  · exact cmem_one w h _
  · rw [eventsSince_of_trace w _ _ (AddWordToSession_trace lib c s len w)]
    exact scopedStrings_one _ _ _ rfl
  · exact cmem_one w h _
  · rw [eventsSince_of_trace w _ _ (CheckWord_trace lib c s len w)]
    exact scopedStrings_one _ _ _ rfl
  · exact cmem_one w h _
  · rw [eventsSince_of_trace w _ _ (GetSuggestions_trace lib c s len w)]
    exact scopedStrings_one _ _ _ rfl
  · exact cmem_one w h _

/-- Witness of `transient_strings_scoped`: the small library in a world where
one unrelated C block is live; after `SetCorrection("hi", 2, "ho", 2)` the heap
holds that block and nothing else, and the events are the two allocations, the
call and the two releases. -/
theorem transient_strings_scoped_witness :
    world2.heapOk = true ∧
      eventsSince world2 (checker7.SetCorrection fakeLib [104, 105] 2 [104, 111] 2 world2) =
        [Event.CString 4 [104, 105, 0], Event.CString 5 [104, 111, 0],
          Event.native (Call.gspell_checker_set_correction 7 ⟨4, some [104, 105, 0]⟩ 2
            ⟨5, some [104, 111, 0]⟩ 2),
          Event.free 5, Event.free 4] ∧
      (scopedStrings (eventsSince world2
          (checker7.SetCorrection fakeLib [104, 105] 2 [104, 111] 2 world2)) = true ∧
        (checker7.SetCorrection fakeLib [104, 105] 2 [104, 111] 2 world2).cmem =
          [(2, [120, 0])]) :=
  ⟨by decide, by decide,
    (transient_strings_scoped fakeLib checker7 ⟨0, ⟨0, 0⟩⟩ navigator10 [104, 105] [104, 111] 2 2
      world2 (by decide)).1⟩

theorem scopedStrings_rejects_leak :
    scopedStrings [Event.CString 4 [104, 0],
      Event.native (Call.gspell_language_lookup ⟨4, some [104, 0]⟩)] = false ∧
    scopedStrings [Event.CString 4 [104, 0],
      Event.native (Call.gspell_language_lookup ⟨4, some [104, 0]⟩),
      Event.free 4, Event.free 4] = false ∧
    scopedStrings [Event.CString 4 [104, 0], Event.free 4,
      Event.native (Call.gspell_language_lookup ⟨4, none⟩)] = false := by
  decide

/-! ### Value marshalers -/

/-- C12, evaluated on the code: for every `GValue` address, every registered
marshaler returns a nil error, and the dynamic type of the value is the wrapper
type of the package for ten of the eleven registered types; `marshalLanguage`
returns a `*C.GspellLanguage`, which is not `*Language`, so the type assertion
to `*Language` fails on its result. -/
theorem marshalLanguage_not_wrapper_type {N : Type} (gv : GValueLib N) (p : Handle)
    (w : World N) :
    (init gv).map (fun e => (e.1, (e.2 p w).1.1.typeOf, (e.2 p w).1.2)) =
        [(GType.gspell_checker_error, GoType.CheckerError, none),
          (GType.gspell_checker, GoType.PtrChecker, none),
          (GType.gspell_checker_dialog, GoType.PtrCheckerDialog, none),
          (GType.gspell_entry, GoType.PtrEntry, none),
          (GType.gspell_entry_buffer, GoType.PtrEntryBuffer, none),
          (GType.gspell_language_chooser_button, GoType.PtrLanguageChooserButton, none),
          (GType.gspell_language_chooser_dialog, GoType.PtrLanguageChooserDialog, none),
          (GType.gspell_navigator_text_view, GoType.PtrNavigatorTextView, none),
          (GType.gspell_text_buffer, GoType.PtrTextBuffer, none),
          (GType.gspell_text_view, GoType.PtrTextView, none),
          (GType.gspell_language, GoType.PtrCGspellLanguage, none)] ∧
      ((init gv).filter (fun e => (e.2 p w).1.1.typeOf != wrapperTypeOf e.1)).map (fun e => e.1) =
        [GType.gspell_language] ∧
      (marshalLanguage gv p w).1.1 = GoValue.PtrCGspellLanguage (gv.g_value_get_boxed w.native p) ∧
      (marshalLanguage gv p w).1.1.typeOf ≠ wrapperTypeOf GType.gspell_language ∧
      (marshalLanguage gv p w).1.1.assertLanguage = none := by
  refine ⟨rfl, ?_, rfl, ?_, rfl⟩
  · simp [init, List.filter_cons, marshalCheckerError, marshalChecker, marshalCheckerDialog,
      marshalEntry, marshalEntryBuffer, marshalLanguageChooserButton,
      marshalLanguageChooserDialog, marshalNavigatorTextView, marshalTextBuffer, marshalTextView,
      marshalLanguage, GoValue.typeOf, wrapperTypeOf]
  · simp [marshalLanguage, GoValue.typeOf, wrapperTypeOf]

/-! ### `GetSpellChecker` -/

/-- C13: `TextBuffer.GetSpellChecker` and `EntryBuffer.GetSpellChecker` return
a non-nil `*Checker` (a wrapper at a non-zero Go address) around whatever
pointer the native getter returns; in the small library, where no checker is
attached to the buffer `1009`, the native getter returns NULL and the wrapper
is still non-nil, with `Native()` equal to `0`. -/
theorem getSpellChecker_never_nil {N : Type} (lib : Lib N) (t : TextBuffer) (e : EntryBuffer)
    (w : World N) :
    ((t.GetSpellChecker lib w).1.addr ≠ 0 ∧
        (t.GetSpellChecker lib w).1.Object.Native =
          lib.gspell_text_buffer_get_spell_checker w.native t.native) ∧
      ((e.GetSpellChecker lib w).1.addr ≠ 0 ∧
        (e.GetSpellChecker lib w).1.Object.Native =
          lib.gspell_entry_buffer_get_spell_checker w.native e.native) ∧
      (fakeLib.gspell_text_buffer_get_spell_checker world0.native 1009 = 0 ∧
        (TextBuffer.GetSpellChecker fakeLib ⟨22, ⟨21, 1009⟩⟩ world0).1.addr ≠ 0 ∧
        (TextBuffer.GetSpellChecker fakeLib ⟨22, ⟨21, 1009⟩⟩ world0).1.Object.Native = 0 ∧
        (EntryBuffer.GetSpellChecker fakeLib ⟨22, ⟨21, 1009⟩⟩ world0).1.addr ≠ 0 ∧
        (EntryBuffer.GetSpellChecker fakeLib ⟨22, ⟨21, 1009⟩⟩ world0).1.Object.Native = 0) := by
  refine ⟨⟨?_, ?_⟩, ⟨?_, ?_⟩, ?_⟩
  · simp [TextBuffer.GetSpellChecker, wrapChecker, glib.Take, World.new, World.call, World.emit,
      World.setNative]
  · simp [TextBuffer.GetSpellChecker, wrapChecker, glib.Take, World.new, World.call, World.emit,
      World.setNative, glib.Object.Native]
  · simp [EntryBuffer.GetSpellChecker, wrapChecker, glib.Take, World.new, World.call, World.emit,
      World.setNative]
  · simp [EntryBuffer.GetSpellChecker, wrapChecker, glib.Take, World.new, World.call, World.emit,
      World.setNative, glib.Object.Native]
  · decide

/-! ### Word lengths -/

theorem gssize_of_isGoInt (n : Int) (h : isGoInt n) : C.gssize n = n := by
  unfold isGoInt at h
  unfold C.gssize
  simp only [wordBits] at h ⊢
  norm_num at h ⊢
  omega

/-- C14: for every word and every Go `int` `wordLength`, `CheckWord`,
`AddWordToSession`, `AddWordToPersonal`, `GetSuggestions` and `SetCorrection`
hand `wordLength` (and `replacementLength`) to the native function unchanged,
next to the C copy of the word, whatever the relation between the two; and
there is an input for which the length handed over exceeds the size of the
block allocated for the word. -/
theorem wordLength_passed_unchanged {N : Type} (lib : Lib N) (c : Checker)
    (word replacement : GoString) (wordLength replacementLength : Int) (w : World N)
    (hw : isGoInt wordLength) (hr : isGoInt replacementLength) :
    callsSince w (c.CheckWord lib word wordLength w).2 =
        [Call.gspell_checker_check_word c.native ⟨w.cnext + 1, some (word ++ [0])⟩
          wordLength 0] ∧
      callsSince w (c.AddWordToSession lib word wordLength w) =
        [Call.gspell_checker_add_word_to_session c.native ⟨w.cnext + 1, some (word ++ [0])⟩
          wordLength] ∧
      callsSince w (c.AddWordToPersonal lib word wordLength w) =
        [Call.gspell_checker_add_word_to_personal c.native ⟨w.cnext + 1, some (word ++ [0])⟩
          wordLength] ∧
      callsSince w (c.GetSuggestions lib word wordLength w).2 =
        [Call.gspell_checker_get_suggestions c.native ⟨w.cnext + 1, some (word ++ [0])⟩
          wordLength] ∧
      callsSince w (c.SetCorrection lib word wordLength replacement replacementLength w) =
        [Call.gspell_checker_set_correction c.native ⟨w.cnext + 1, some (word ++ [0])⟩
          wordLength ⟨w.cnext + 1 + 1, some (replacement ++ [0])⟩ replacementLength] ∧
      ∃ (wd : GoString) (n : Int), isGoInt n ∧
        ((⟨w.cnext + 1, some (wd ++ [0])⟩ : CStrArg).size : Int) < n ∧
        callsSince w (c.CheckWord lib wd n w).2 =
          [Call.gspell_checker_check_word c.native ⟨w.cnext + 1, some (wd ++ [0])⟩ n 0] := by
  have e1 := callsSince_of_trace w _ _ (CheckWord_trace lib c word wordLength w)
  have e2 := callsSince_of_trace w _ _ (AddWordToSession_trace lib c word wordLength w)
  have e3 := callsSince_of_trace w _ _ (AddWordToPersonal_trace lib c word wordLength w)
  have e4 := callsSince_of_trace w _ _ (GetSuggestions_trace lib c word wordLength w)
  have e5 := callsSince_of_trace w _ _
    (SetCorrection_trace lib c word wordLength replacement replacementLength w)
  rw [gssize_of_isGoInt _ hw] at e1 e2 e3 e4 e5
  rw [gssize_of_isGoInt _ hr] at e5
  refine ⟨e1, e2, e3, e4, e5, [104, 105], 100, by decide, by simp [CStrArg.size], ?_⟩
  have e6 := callsSince_of_trace w _ _ (CheckWord_trace lib c [104, 105] 100 w)
  rw [gssize_of_isGoInt 100 (by decide)] at e6
  exact e6

/-- Witness of `wordLength_passed_unchanged`: in the small library the word
`"hi"` (a block of 3 bytes) is handed over with the length `100`, and with the
negative length `-5`. -/
theorem wordLength_passed_unchanged_witness :
    isGoInt 100 ∧ isGoInt (-5) ∧
      callsSince world0 (checker7.CheckWord fakeLib [104, 105] 100 world0).2 =
        [Call.gspell_checker_check_word 7 ⟨1, some [104, 105, 0]⟩ 100 0] ∧
      callsSince world0 (checker7.SetCorrection fakeLib [104, 105] 100 [104, 111] (-5) world0) =
        [Call.gspell_checker_set_correction 7 ⟨1, some [104, 105, 0]⟩ 100
          ⟨2, some [104, 111, 0]⟩ (-5)] :=
  ⟨by decide, by decide,
    (wordLength_passed_unchanged fakeLib checker7 [104, 105] [104, 111] 100 (-5) world0
      (by decide) (by decide)).1,
    (wordLength_passed_unchanged fakeLib checker7 [104, 105] [104, 111] 100 (-5) world0
      (by decide) (by decide)).2.2.2.2.1⟩

end Gspell
